import Mathlib

/-!
Verification development for the configuration-resolution and provider-routing
core of the `chi_llm` library.

The Python sources are shallowly embedded:
* parsed JSON/YAML configuration data is modelled by the mutual inductive
  `JVal`/`JArr`/`JObj` (Python `dict`s are insertion-ordered association lists
  with unique keys; `dict.__setitem__` updates in place, appending new keys);
* Python `float` values are modelled by `ℚ`;
* functions that can raise return `Except`;
* ambient process state (environment variables, files on disk, binaries on
  `PATH`, the model cache) is passed explicitly as "world" records.
-/

namespace ChiLLM

/-! ## JSON-like configuration values -/

mutual

inductive JVal : Type where
  | jnull : JVal
  | jbool : Bool → JVal
  | jnum : ℚ → JVal
  | jstr : String → JVal
  | jarr : JArr → JVal
  | jobj : JObj → JVal

inductive JArr : Type where
  | nil : JArr
  | cons : JVal → JArr → JArr

inductive JObj : Type where
  | nil : JObj
  | cons : String → JVal → JObj → JObj

end

/-- Build a `JObj` from a list literal. -/
def jo : List (String × JVal) → JObj
  | [] => .nil
  | (k, v) :: rest => .cons k v (jo rest)

/-- Build a `JArr` from a list literal. -/
def ja : List JVal → JArr
  | [] => .nil
  | v :: rest => .cons v (ja rest)

/-- Dictionary lookup (`d.get(k)` / `d[k]`); keys of parsed JSON are unique,
so first match is the binding. -/
def JObj.lookup (k : String) : JObj → Option JVal
  | .nil => none
  | .cons k' v rest => if k' = k then some v else JObj.lookup k rest

/-- Dictionary assignment `d[k] = v`: replaces the first binding of `k`
in place, or appends the new key at the end (Python insertion order). -/
def JObj.set (k : String) (v : JVal) : JObj → JObj
  | .nil => .cons k v .nil
  | .cons k' v' rest =>
      if k' = k then .cons k' v rest else .cons k' v' (JObj.set k v rest)

/-- The keys of an object, in order. -/
def JObj.keys : JObj → List String
  | .nil => []
  | .cons k _ rest => k :: JObj.keys rest

/-- Shallow `base.update(overrides)`: assign each binding of `overrides`
into `base`, in order. -/
def JObj.update (base : JObj) : JObj → JObj
  | .nil => base
  | .cons k v rest => JObj.update (base.set k v) rest

def JArr.isNil : JArr → Bool
  | .nil => true
  | .cons _ _ => false

def JObj.isNil : JObj → Bool
  | .nil => true
  | .cons _ _ _ => false

def JVal.isObj : JVal → Bool
  | .jobj _ => true
  | _ => false

/-- Python truthiness of a JSON value (`bool(v)`). -/
def pyTruthy : JVal → Bool
  | .jnull => false
  | .jbool b => b
  | .jnum q => q ≠ 0
  | .jstr s => s ≠ ""
  | .jarr a => !a.isNil
  | .jobj o => !o.isNil

/-- Truthiness of `d.get(k)` where a missing key yields `None`. -/
def pyTruthyOpt : Option JVal → Bool
  | some v => pyTruthy v
  | none => false

/-! ## Python scalar helpers -/

/-- Python whitespace characters stripped by `str.strip()`. -/
def isPyWs (c : Char) : Bool :=
  c = ' ' || c = '\t' || c = '\n' || c = '\r' || c = '\x0b' || c = '\x0c'

def pyStripList (l : List Char) : List Char :=
  ((l.dropWhile isPyWs).reverse.dropWhile isPyWs).reverse

/-- Python `str.strip()`. -/
def pyStrip (s : String) : String :=
  ⟨pyStripList s.data⟩

def digitsToNat : List Char → Option Nat
  | [] => none
  | ds =>
      if ds.all (·.isDigit) then
        some (ds.foldl (fun acc c => acc * 10 + (c.toNat - '0'.toNat)) 0)
      else none

/-- Python `int(s)` on a decimal string: surrounding whitespace is allowed,
then an optional sign and a non-empty digit run (exotic forms such as digit
group underscores are not modelled). -/
def pyParseInt (s : String) : Option Int :=
  match pyStripList s.data with
  | '+' :: ds => (digitsToNat ds).map Int.ofNat
  | '-' :: ds => (digitsToNat ds).map (fun n => -(n : Int))
  | ds => (digitsToNat ds).map Int.ofNat

/-- Python `float(s)` on a decimal string: optional sign, digits with an
optional fractional part (exponents/inf/nan are not modelled). -/
def pyParseFloat (s : String) : Option ℚ :=
  let core : List Char → Option ℚ := fun ds =>
    match ds.span (· ≠ '.') with
    | (intPart, []) => (digitsToNat intPart).map (fun n => (n : ℚ))
    | (intPart, _ :: fracPart) =>
        if intPart = [] ∧ fracPart = [] then none
        else
          match digitsToNat (intPart ++ fracPart), intPart ++ fracPart with
          | some n, _ =>
              some ((n : ℚ) / ((10 : ℚ) ^ fracPart.length))
          | none, _ =>
              if intPart = [] then
                (digitsToNat fracPart).map
                  (fun n => (n : ℚ) / ((10 : ℚ) ^ fracPart.length))
              else if fracPart = [] then
                (digitsToNat intPart).map (fun n => (n : ℚ))
              else none
  match pyStripList s.data with
  | '+' :: ds => core ds
  | '-' :: ds => (core ds).map Neg.neg
  | ds => core ds

/-- Python `float(v)` on a JSON value: numbers pass through, booleans coerce,
numeric strings are parsed, everything else raises. -/
def pyFloat : JVal → Option ℚ
  | .jnum q => some q
  | .jbool b => some (if b then 1 else 0)
  | .jstr s => pyParseFloat s
  | _ => none

/-- Python `str(v)` as far as the embedding needs it: strings pass through,
`None`/booleans render as their literals, and the remaining cases render to
some non-empty placeholder text (their exact rendering is never compared
against a provider-type or key string by the embedded code paths). -/
def pyStr : JVal → String
  | .jstr s => s
  | .jnull => "None"
  | .jbool b => if b then "True" else "False"
  | .jnum _ => "<number>"
  | .jarr _ => "<list>"
  | .jobj _ => "<dict>"

/-- `isinstance(v, int)` together with the value (Python `bool` is an `int`
subtype; JSON integers are `int`). -/
def pyIntVal : JVal → Option Int
  | .jnum q => if q.den = 1 then some q.num else none
  | .jbool b => some (if b then 1 else 0)
  | _ => none

/-- `isinstance(v, str)` together with the value. -/
def pyStrVal : Option JVal → Option String
  | some (.jstr s) => some s
  | _ => none

/-! ## Model registry (`chi_llm/models.py`)

`ModelInfo` and the static `MODELS` dictionary, kept in insertion order.
`recommended_ram_gb` is a Python float, modelled by `ℚ`. -/

structure ModelInfo where
  id : String
  name : String
  size : String
  file_size_mb : Int
  repo : String
  filename : String
  context_window : Int
  description : String
  recommended_ram_gb : ℚ
  tags : List String
  deriving DecidableEq

def gemma270m : ModelInfo :=
  { id := "gemma-270m", name := "Gemma 3 270M", size := "270M",
    file_size_mb := 385,
    repo := "lmstudio-community/gemma-3-270m-it-GGUF",
    filename := "gemma-3-270m-it-Q8_0.gguf", context_window := 32768,
    description := "Ultra-lightweight, fast inference, good for basic tasks",
    recommended_ram_gb := 2.0,
    tags := ["tiny", "fast", "cpu-friendly", "default"] }

def qwen3_0_6b : ModelInfo :=
  { id := "qwen3-0.6b", name := "Qwen3 0.6B", size := "0.6B",
    file_size_mb := 500, repo := "Qwen/Qwen3-0.6B-GGUF",
    filename := "qwen3-0.6b-instruct-q5_k_m.gguf", context_window := 32768,
    description := "Tiny but capable, supports thinking/non-thinking modes",
    recommended_ram_gb := 1.5, tags := ["tiny", "versatile", "thinking-mode"] }

def qwen3_1_7b : ModelInfo :=
  { id := "qwen3-1.7b", name := "Qwen3 1.7B", size := "1.7B",
    file_size_mb := 1100, repo := "Qwen/Qwen3-1.7B-GGUF",
    filename := "qwen3-1.7b-instruct-q5_k_m.gguf", context_window := 32768,
    description := "Best performing model under 2B, thinking mode support",
    recommended_ram_gb := 3.0,
    tags := ["small", "balanced", "recommended", "thinking-mode"] }

def stablelm_2_1_6b : ModelInfo :=
  { id := "stablelm-2-1.6b", name := "StableLM 2 1.6B", size := "1.6B",
    file_size_mb := 1100, repo := "lmstudio-community/stablelm-2-1_6b-GGUF",
    filename := "stablelm-2-1_6b-Q4_K_M.gguf", context_window := 4096,
    description := "Stable Diffusion's language model, good general performance",
    recommended_ram_gb := 3.0, tags := ["small", "stable"] }

def gemma2_2b : ModelInfo :=
  { id := "gemma2-2b", name := "Gemma 2 2B", size := "2B",
    file_size_mb := 1420, repo := "bartowski/gemma-2-2b-it-GGUF",
    filename := "gemma-2-2b-it-Q4_K_M.gguf", context_window := 8192,
    description := "Google's efficient 2B model, great quality/size ratio",
    recommended_ram_gb := 4.0, tags := ["medium", "google", "efficient"] }

def phi2_2_7b : ModelInfo :=
  { id := "phi2-2.7b", name := "Phi-2", size := "2.7B",
    file_size_mb := 1680, repo := "lmstudio-community/Phi-2-GGUF",
    filename := "Phi-2-Q4_K_M.gguf", context_window := 2048,
    description := "Microsoft's small model, strong reasoning capabilities",
    recommended_ram_gb := 4.0, tags := ["medium", "microsoft", "reasoning"] }

def stablelm_3b : ModelInfo :=
  { id := "stablelm-3b", name := "StableLM 3B", size := "2.8B",
    file_size_mb := 1800, repo := "lmstudio-community/stablelm-3b-4e1t-GGUF",
    filename := "stablelm-3b-4e1t-Q4_K_M.gguf", context_window := 4096,
    description := "Best performing 3B model, trained on 4 trillion tokens",
    recommended_ram_gb := 4.0, tags := ["medium", "high-quality"] }

def phi3_mini : ModelInfo :=
  { id := "phi3-mini", name := "Phi-3 Mini", size := "3.8B",
    file_size_mb := 2400, repo := "microsoft/Phi-3-mini-4k-instruct-gguf",
    filename := "Phi-3-mini-4k-instruct-q4.gguf", context_window := 4096,
    description := "Microsoft's champion model, performs like 7B but runs like 3B",
    recommended_ram_gb := 5.0,
    tags := ["large", "best-quality", "microsoft", "recommended"] }

def qwen3_8b : ModelInfo :=
  { id := "qwen3-8b", name := "Qwen3 8B", size := "8B",
    file_size_mb := 5500, repo := "Qwen/Qwen3-8B-GGUF",
    filename := "qwen3-8b-instruct-q5_k_m.gguf", context_window := 32768,
    description := "Latest Qwen3, excellent reasoning and multilingual support",
    recommended_ram_gb := 9.0,
    tags := ["large", "multilingual", "latest", "thinking-mode"] }

def gemma2_9b : ModelInfo :=
  { id := "gemma2-9b", name := "Gemma 2 9B (Q2_K)", size := "9B",
    file_size_mb := 3900, repo := "bartowski/gemma-2-9b-it-GGUF",
    filename := "gemma-2-9b-it-Q2_K.gguf", context_window := 8192,
    description := "Heavily quantized 9B model that runs like 4B",
    recommended_ram_gb := 6.0, tags := ["large", "compressed", "powerful"] }

def liquid_lfm2_1_2b : ModelInfo :=
  { id := "liquid-lfm2-1.2b", name := "Liquid LFM2 1.2B", size := "1.2B",
    file_size_mb := 1250, repo := "LiquidAI/LFM2-1.2B-GGUF",
    filename := "LFM2-1.2B-Q8_0.gguf", context_window := 32768,
    description := "Blazingly fast hybrid architecture, excels at math & multilingual",
    recommended_ram_gb := 2.5,
    tags := ["small", "fast", "multilingual", "math", "hybrid"] }

def deepseek_r1_qwen_1_5b : ModelInfo :=
  { id := "deepseek-r1-qwen-1.5b", name := "DeepSeek R1 Distill Qwen 1.5B",
    size := "1.5B", file_size_mb := 1600,
    repo := "bartowski/DeepSeek-R1-Distill-Qwen-1.5B-GGUF",
    filename := "DeepSeek-R1-Distill-Qwen-1.5B-Q5_K_M.gguf",
    context_window := 32768,
    description := "Distilled from DeepSeek R1, strong reasoning capabilities",
    recommended_ram_gb := 3.0, tags := ["small", "reasoning", "distilled"] }

def qwen3_4b_thinking : ModelInfo :=
  { id := "qwen3-4b-thinking", name := "Qwen3 4B Thinking 2507", size := "4B",
    file_size_mb := 2800, repo := "qwen/qwen3-4b-thinking-2507-gguf",
    filename := "qwen3-4b-thinking-2507-Q5_K_M.gguf", context_window := 262144,
    description := "Advanced reasoning with thinking capability, 256K context",
    recommended_ram_gb := 5.0,
    tags := ["medium", "reasoning", "thinking", "long-context", "256k"] }

def qwen3_4b : ModelInfo :=
  { id := "qwen3-4b", name := "Qwen3 4B Instruct 2507", size := "4B",
    file_size_mb := 2800, repo := "qwen/qwen3-4b-2507-gguf",
    filename := "qwen3-4b-2507-Q5_K_M.gguf", context_window := 262144,
    description := "Enhanced general capabilities, 256K context",
    recommended_ram_gb := 5.0,
    tags := ["medium", "general", "long-context", "256k"] }

def qwen2_5_coder_0_5b : ModelInfo :=
  { id := "qwen2.5-coder-0.5b", name := "Qwen2.5 Coder 0.5B", size := "0.5B",
    file_size_mb := 500, repo := "Qwen/Qwen2.5-Coder-0.5B-Instruct-GGUF",
    filename := "qwen2.5-coder-0.5b-instruct-q5_k_m.gguf",
    context_window := 32768,
    description := "Tiny coding assistant, perfect for IDE integration",
    recommended_ram_gb := 1.5, tags := ["tiny", "coding", "fast", "ide"] }

def qwen2_5_coder_1_5b : ModelInfo :=
  { id := "qwen2.5-coder-1.5b", name := "Qwen2.5 Coder 1.5B", size := "1.5B",
    file_size_mb := 1100, repo := "Qwen/Qwen2.5-Coder-1.5B-Instruct-GGUF",
    filename := "qwen2.5-coder-1.5b-instruct-q5_k_m.gguf",
    context_window := 32768,
    description := "Small but capable coding model",
    recommended_ram_gb := 2.5, tags := ["small", "coding", "balanced"] }

def qwen2_5_coder_3b : ModelInfo :=
  { id := "qwen2.5-coder-3b", name := "Qwen2.5 Coder 3B", size := "3B",
    file_size_mb := 2100, repo := "Qwen/Qwen2.5-Coder-3B-Instruct-GGUF",
    filename := "qwen2.5-coder-3b-instruct-q5_k_m.gguf",
    context_window := 32768,
    description := "Powerful coding model with good performance",
    recommended_ram_gb := 4.0, tags := ["medium", "coding", "powerful"] }

def qwen2_5_coder_7b : ModelInfo :=
  { id := "qwen2.5-coder-7b", name := "Qwen2.5 Coder 7B", size := "7B",
    file_size_mb := 4900, repo := "Qwen/Qwen2.5-Coder-7B-Instruct-GGUF",
    filename := "qwen2.5-coder-7b-instruct-q5_k_m.gguf",
    context_window := 32768,
    description := "Professional-grade coding model, excellent for complex tasks",
    recommended_ram_gb := 8.0,
    tags := ["large", "coding", "professional", "complex"] }

/-- The `MODELS` registry, in dictionary insertion order
(`MODELS.values()` iterates in this order). -/
def MODELS : List ModelInfo :=
  [gemma270m, qwen3_0_6b, qwen3_1_7b, stablelm_2_1_6b, gemma2_2b, phi2_2_7b,
   stablelm_3b, phi3_mini, qwen3_8b, gemma2_9b, liquid_lfm2_1_2b,
   deepseek_r1_qwen_1_5b, qwen3_4b_thinking, qwen3_4b, qwen2_5_coder_0_5b,
   qwen2_5_coder_1_5b, qwen2_5_coder_3b, qwen2_5_coder_7b]

/-- `model_id in MODELS` (dictionary key membership). -/
def isRegistryId (mid : String) : Bool :=
  MODELS.any (fun m => m.id = mid)

/-- `MODELS[mid]` when present. -/
def registryLookup (mid : String) : Option ModelInfo :=
  MODELS.find? (fun m => m.id = mid)

/-- `ModelManager.recommend_model`, with the ambient
`self._get_available_ram()` made an explicit argument.  The loop takes the
first registry entry (in insertion order) that is tagged "recommended" and
satisfies `recommended_ram_gb <= available_ram * 0.7`, defaulting to
`MODELS["gemma-270m"]`. -/
def recommend_model (available_ram_gb : ℚ) : ModelInfo :=
  match MODELS.find? (fun m =>
      m.tags.contains "recommended"
        && decide (m.recommended_ram_gb ≤ available_ram_gb * 0.7)) with
  | some m => m
  | none => gemma270m

/-! ## `chi_llm/utils.py`: `_deep_merge` and `load_config` -/

mutual

/-- One step of `_deep_merge`: the value stored for a key of `overrides`,
given the value `base` currently holds there (`none` = key absent).  Only
when both sides are dicts does the merge recurse; every other override value
replaces the base value outright. -/
def deepMergeVal : Option JVal → JVal → JVal
  | some (.jobj b), .jobj o => .jobj (deepMergeObj b o)
  | _, v => v

/-- `_deep_merge(base, overrides)`: iterate the bindings of `overrides` in
order, assigning each into `base` (recursively for dict-valued keys held by
both sides). -/
def deepMergeObj (base : JObj) : JObj → JObj
  | .nil => base
  | .cons k v rest =>
      deepMergeObj (base.set k (deepMergeVal (base.lookup k) v)) rest

end

/-- The narrowly-scoped `CHI_LLM_PROVIDER_*`-style environment overrides read
by `utils.load_config` (each `os.environ.get(...)`; `none` = unset). -/
structure EnvProv where
  ptype : Option String := none
  host : Option String := none
  port : Option String := none
  apiKey : Option String := none
  model : Option String := none
  modelPath : Option String := none
  ggufPaths : Option String := none
  ctx : Option String := none
  ngl : Option String := none
  outputTokens : Option String := none
  deriving DecidableEq

/-- `if value:` on an optional environment string (unset or empty ⇒ skip). -/
def envTruthy : Option String → Bool
  | some s => s ≠ ""
  | none => false

/-- The built-in defaults of `utils.load_config` (step 1).  `cache_dir` is
`Path.home()/".cache"/"chi_llm"`, rendered symbolically. -/
def utilsDefaults : JObj :=
  jo [("model", .jobj (jo [("temperature", .jnum 0.7),
                           ("max_tokens", .jnum 4096),
                           ("top_p", .jnum 0.95),
                           ("top_k", .jnum 40)])),
      ("cache_dir", .jstr "~/.cache/chi_llm"),
      ("verbose", .jbool false),
      ("provider", .jobj .nil),
      ("auto_discovery_gguf_paths", .jarr .nil)]

/-- `config.setdefault("provider", {}); config["provider"][k] = v`.
If the `provider` key holds a non-dict value the subscript assignment raises
(`TypeError`), which propagates out of `load_config`. -/
def setProviderKey (c : JObj) (k : String) (v : JVal) : Except Unit JObj :=
  match c.lookup "provider" with
  | none => .ok (c.set "provider" (.jobj (JObj.nil.set k v)))
  | some (.jobj p) => .ok (c.set "provider" (.jobj (p.set k v)))
  | some _ => .error ()

/-- An environment override applied through `setProviderKey` when the
variable is set and truthy, otherwise a no-op. -/
def applyProviderEnv (c : Except Unit JObj) (ev : Option String)
    (k : String) (mk : String → JVal) : Except Unit JObj :=
  match c with
  | .error e => .error e
  | .ok c' =>
      match ev with
      | some s => if s = "" then .ok c' else setProviderKey c' k (mk s)
      | none => .ok c'

/-- The tolerant variant used for `context_window` / `n_gpu_layers` /
`output_tokens`: the assignment sits in a `try/except Exception: pass`, so
both parse failures and a non-dict `provider` value are swallowed. -/
def applyProviderEnvTolerant (c : JObj) (ev : Option String)
    (k : String) : JObj :=
  match ev with
  | some s =>
      if s = "" then c
      else
        match pyParseInt s with
        | some n =>
            match setProviderKey c k (.jnum n) with
            | .ok c' => c'
            | .error _ => c
        | none => c
  | none => c

/-- `CHI_LLM_PROVIDER_PORT`: store as int when possible, else keep raw. -/
def portVal (s : String) : JVal :=
  match pyParseInt s with
  | some n => .jnum n
  | none => .jstr s

/-- The six raising provider-env assignments of `utils.load_config`, in
source order: variable value, `provider` subkey, value constructor. -/
def providerEnvSetSteps (ep : EnvProv) :
    List (Option String × String × (String → JVal)) :=
  [(ep.ptype, "type", .jstr), (ep.host, "host", .jstr),
   (ep.port, "port", portVal), (ep.apiKey, "api_key", .jstr),
   (ep.model, "model", .jstr), (ep.modelPath, "model_path", .jstr)]

/-- Sequential application of the raising provider-env assignments. -/
def applyAll (c : Except Unit JObj) :
    List (Option String × String × (String → JVal)) → Except Unit JObj
  | [] => c
  | (ev, k, mk) :: rest => applyAll (applyProviderEnv c ev k mk) rest

/-- The three tolerant provider-env assignments, in source order. -/
def tolerantSteps (ep : EnvProv) : List (Option String × String) :=
  [(ep.ctx, "context_window"), (ep.ngl, "n_gpu_layers"),
   (ep.outputTokens, "output_tokens")]

/-- Sequential application of the tolerant assignments. -/
def applyAllTolerant (c : JObj) : List (Option String × String) → JObj
  | [] => c
  | (ev, k) :: rest => applyAllTolerant (applyProviderEnvTolerant c ev k) rest

/-- `utils.load_config`.

Inputs stand for ambient state:
* `proj`: parsed content of the first of `.chi_llm.yaml`/`.yml`/`.json`
  found in the CWD (`none` = no such file, or it failed to parse — a parse
  failure merges the empty fallback dict, which is a no-op);
* `custom`: parsed content of an explicitly passed `config_path` that
  exists (`none` = no path given, path missing, or parse failure);
* `envc`: the `CHI_LLM_CONFIG` override — the parsed file it points to, or
  the inline JSON dict it holds (`none` = unset / unusable);
* `ep`: the `CHI_LLM_PROVIDER_*` / `CHI_LLM_GGUF_PATHS` variables.

Raises (`.error`) only when a `provider[...]` env assignment hits a
non-dict `provider` value. -/
def fileLayer (proj custom envc : Option JObj) : JObj :=
  let c0 := utilsDefaults
  let c1 := match proj with
            | some p => deepMergeObj c0 p
            | none => c0
  let c2 := match custom with
            | some p => deepMergeObj c1 p
            | none => c1
  match envc with
  | some p => deepMergeObj c2 p
  | none => c2

/-- The `CHI_LLM_GGUF_PATHS` override: split on `os.pathsep` (':' on
POSIX), strip each entry, keep non-empty ones; assign only if the result is
non-empty. -/
def ggufStep (ep : EnvProv) (c : JObj) : JObj :=
  match ep.ggufPaths with
  | some s =>
      if s = "" then c
      else
        let paths := ((s.split (· = ':')).map pyStrip).filter (· ≠ "")
        if paths.isEmpty then c
        else c.set "auto_discovery_gguf_paths" (.jarr (ja (paths.map .jstr)))
  | none => c

def load_config (proj custom envc : Option JObj) (ep : EnvProv) :
    Except Unit JObj :=
  match applyAll (.ok (fileLayer proj custom envc)) (providerEnvSetSteps ep) with
  | .error e => .error e
  | .ok c6 => .ok (applyAllTolerant (ggufStep ep c6) (tolerantSteps ep))

/-! ## `chi_llm/models.py`: `ModelManager.load_config` -/

/-- Ambient state consumed by one `ModelManager` construction.

`src*` fields hold the parsed JSON content of the corresponding
`config_paths` entry when that path is present and loads successfully
(`none` = entry absent, file missing, or a load failure — which the source
logs and skips).  `resolutionMode` and `allowGlobal` are the flags as
resolved in `ModelManager.__init__` / `_apply_peek_flags` (environment first,
then peeked from the local/project files). -/
structure ManagerWorld where
  envModel : Option String := none
  envContext : Option String := none
  envMaxTokens : Option String := none
  srcCustom : Option JObj := none
  srcEnvFile : Option JObj := none
  srcLocal : Option JObj := none
  srcProject : Option JObj := none
  srcGlobal : Option JObj := none
  resolutionMode : String := "project-first"
  allowGlobal : Bool := false

/-- Result of `ModelManager.load_config`: the merged `self.config` plus the
`self._explicit_default` flag. -/
structure ManagerConfig where
  config : JObj
  explicitDefault : Bool

/-- Base defaults of `ModelManager.load_config` (no `default_model` yet). -/
def managerBase : JObj :=
  jo [("downloaded_models", .jarr .nil),
      ("preferred_context", .jnum 8192),
      ("preferred_max_tokens", .jnum 4096)]

/-- `ModelManager._merge_loaded_config`: mark the default explicit when the
loaded dict carries a truthy `default_model`, then shallow
`self.config.update(loaded)`. -/
def mergeLoadedConfig (mc : ManagerConfig) (loaded : JObj) : ManagerConfig :=
  { config := mc.config.update loaded,
    explicitDefault :=
      mc.explicitDefault || pyTruthyOpt (loaded.lookup "default_model") }

/-- The ordered file sources actually applied (docstring order —
project-first: local → project → env-file → custom, env-first: env-file →
local → project → custom; global appended last when allowed).  Absent
sources are dropped. -/
def orderedSources (mw : ManagerWorld) : List JObj :=
  ((if mw.resolutionMode = "env-first" then
      [mw.srcEnvFile, mw.srcLocal, mw.srcProject, mw.srcCustom]
    else
      [mw.srcLocal, mw.srcProject, mw.srcEnvFile, mw.srcCustom])
    ++ (if mw.allowGlobal then [mw.srcGlobal] else [])).filterMap id

/-- `CHI_LLM_MODEL` override: applied only when set, truthy and a known
registry id. -/
def managerEnvModelStep (envModel : Option String) (mc : ManagerConfig) :
    ManagerConfig :=
  match envModel with
  | some mid =>
      if mid ≠ "" && isRegistryId mid then
        { config := mc.config.set "default_model" (.jstr mid),
          explicitDefault := true }
      else mc
  | none => mc

/-- `CHI_LLM_CONTEXT` / `CHI_LLM_MAX_TOKENS` override: presence-based,
parse the int or skip on `ValueError`. -/
def managerIntStep (ev : Option String) (k : String) (mc : ManagerConfig) :
    ManagerConfig :=
  match ev with
  | some s =>
      match pyParseInt s with
      | some n => { mc with config := mc.config.set k (.jnum n) }
      | none => mc
  | none => mc

/-- Fill the built-in default if `default_model` is still unset/falsy. -/
def managerFillStep (mc : ManagerConfig) : ManagerConfig :=
  if pyTruthyOpt (mc.config.lookup "default_model") then mc
  else { mc with config := mc.config.set "default_model" (.jstr "gemma-270m") }

/-- `ModelManager.load_config`: file-based sources in precedence order
(later update wins), then the environment overrides, then the built-in
default fill. -/
def managerLoadConfig (mw : ManagerWorld) : ManagerConfig :=
  managerFillStep
    (managerIntStep mw.envMaxTokens "preferred_max_tokens"
      (managerIntStep mw.envContext "preferred_context"
        (managerEnvModelStep mw.envModel
          ((orderedSources mw).foldl mergeLoadedConfig
            { config := managerBase, explicitDefault := false }))))

/-- The explicitly-set `default_model` of a merged configuration when it is
a (non-empty) string id. -/
def effectiveDefault (mc : ManagerConfig) : Option String :=
  match mc.config.lookup "default_model" with
  | some (.jstr s) => if s = "" then none else some s
  | _ => none

/-- Modelled from the spec: `ModelManager.resolve_effective_model` is invoked
from `core.py` (`MicroLLM.__init__`) and `cli_modules/diagnostics.py` but its
definition is not present under `src/`.  Spec §4.3 (Model Selector), decision
order, first match wins:
1. an explicitly set `default_model` (env, discovered file, or explicit
   path — i.e. `self._explicit_default`) → `(that id, "explicit default")`;
2. a `provider.type == "local"` block naming a `model` (passed in as the
   `provider_local_model` argument) → `(that id, "provider local fallback")`;
3. otherwise → `("gemma-270m", "legacy default")`. -/
def resolve_effective_model (mc : ManagerConfig)
    (provider_local_model : Option String) : String × String :=
  match (if mc.explicitDefault then effectiveDefault mc else none) with
  | some mid => (mid, "explicit default")
  | none =>
      match provider_local_model with
      | some m => (m, "provider local fallback")
      | none => ("gemma-270m", "legacy default")

/-! ## `chi_llm/providers/router.py`: `ProviderRouter`

Profiles are dicts in the source; the router reads exactly `type`, `tags`
(defaulted to `[]`) and `priority` (defaulted to `100`), plus an opaque
remainder handed to the adapter factory.  `Profile` carries those read
fields (`name` identifies the profile).  Adapter behaviour — whether the
type has a factory in the registry, whether the factory call raises, and
what each operation returns or raises — is environment, passed as
`RouterEnv` oracles. -/

structure Profile where
  name : String
  ptype : String
  tags : List String
  priority : Option Int
  deriving DecidableEq

/-- `int(p.get("priority", 100))`. -/
def effPriority (p : Profile) : Int :=
  p.priority.getD 100

/-- The sort key comparison used by `sorted(..., key=lambda p: int(...))`. -/
def priLe (a b : Profile) : Prop :=
  effPriority a ≤ effPriority b

instance : DecidableRel priLe := fun a b => by
  unfold priLe; infer_instance

instance : IsTrans Profile priLe :=
  ⟨fun _ _ _ h1 h2 => le_trans h1 h2⟩

instance : IsTotal Profile priLe :=
  ⟨fun a b => Int.le_total (effPriority a) (effPriority b)⟩

/-- Non-empty intersection of two tag sets
(`set(p.get("tags") or []).intersection(wanted)`). -/
def intersects (ptags wanted : List String) : Bool :=
  ptags.any wanted.contains

/-- `tags or []` on the caller-supplied optional tag list. -/
def wantedOf (tags : Option (List String)) : List String :=
  tags.getD []

/-- Candidate test of `_sorted_profiles`: keep `p` when the caller supplied
no tags (`not wanted`) or the tag sets intersect. -/
def isCandidate (wanted : List String) (p : Profile) : Bool :=
  wanted.isEmpty || intersects p.tags wanted

/-- `ProviderRouter._sorted_profiles`: filter to candidates, then stable-sort
ascending by effective priority (Python's `sorted` is stable; so is
insertion sort). -/
def sorted_profiles (profiles : List Profile) (tags : Option (List String)) :
    List Profile :=
  List.insertionSort priLe (profiles.filter (isCandidate (wantedOf tags)))

/-- Oracles describing the world a dispatch runs against: `hasFactory t` is
`registry.get(str(t)) is not None`; `constructOk p` is whether
`factory(profile)` returns (vs. raises); `op* p` is the text the constructed
adapter's operation returns, `none` meaning it raises. -/
structure RouterEnv where
  hasFactory : String → Bool
  constructOk : Profile → Bool
  opGenerate : Profile → Option String
  opChat : Profile → Option String
  opComplete : Profile → Option String

/-- The candidate loop shared by `generate`/`chat`/`complete` over
`_iter_candidates`: profiles whose type has no factory, or whose factory
raises, are skipped; otherwise the operation is invoked — on success its
text is returned, on an exception the loop moves on.  The second component
records, in order, the profiles on which the operation was actually invoked
(each at most once — the generator yields each sorted profile once). -/
def dispatchGo (env : RouterEnv) (op : Profile → Option String) :
    List Profile → Option String × List Profile
  | [] => (none, [])
  | p :: rest =>
      if env.hasFactory p.ptype then
        if env.constructOk p then
          match op p with
          | some text => (some text, [p])
          | none =>
              let r := dispatchGo env op rest
              (r.1, p :: r.2)
        else dispatchGo env op rest
      else dispatchGo env op rest

/-- `ProviderRouter.generate` (with invocation trace). -/
def router_generate (env : RouterEnv) (profiles : List Profile)
    (tags : Option (List String)) : Except String String × List Profile :=
  match dispatchGo env env.opGenerate (sorted_profiles profiles tags) with
  | (some t, tr) => (.ok t, tr)
  | (none, tr) => (.error "All providers failed for generate()", tr)

/-- `ProviderRouter.chat` (with invocation trace). -/
def router_chat (env : RouterEnv) (profiles : List Profile)
    (tags : Option (List String)) : Except String String × List Profile :=
  match dispatchGo env env.opChat (sorted_profiles profiles tags) with
  | (some t, tr) => (.ok t, tr)
  | (none, tr) => (.error "All providers failed for chat()", tr)

/-- `ProviderRouter.complete` (with invocation trace). -/
def router_complete (env : RouterEnv) (profiles : List Profile)
    (tags : Option (List String)) : Except String String × List Profile :=
  match dispatchGo env env.opComplete (sorted_profiles profiles tags) with
  | (some t, tr) => (.ok t, tr)
  | (none, tr) => (.error "All providers failed for complete()", tr)

/-! ## `chi_llm/core.py`: `MicroLLM`

`MicroLLM()` is embedded for its default constructor arguments
(`model_path=None`, `model_id=None`, `max_tokens=4096`) — the claims all
concern configuration-driven construction.  Ambient process state is the
`World` record.  External collaborators (the HuggingFace download, the
llama.cpp load) are modelled as succeeding; their failure modes are outside
every claim. -/

/-- Ambient state read by `utils.load_config` inside `MicroLLM.__init__`
(which calls it with no `config_path`). -/
structure UtilsWorld where
  proj : Option JObj := none
  envFile : Option JObj := none
  ep : EnvProv := {}

/-- Ambient state for one `MicroLLM` construction.  `legacyCached` is
`(MODEL_DIR / MODEL_FILE).exists()`; `downloadedFilenames` are the model
files present in `MODEL_DIR` (consulted by `ModelManager.get_model_path`);
`pathBinaries` are the executables `shutil.which` finds.  `uw`/`mw` model
what the two resolvers read — they overlap in reality (e.g. a CWD
`.chi_llm.json` feeds both), so related worlds are instantiated
consistently. -/
structure World where
  uw : UtilsWorld := {}
  mw : ManagerWorld := {}
  legacyCached : Bool := false
  downloadedFilenames : List String := []
  pathBinaries : List String := []

/-- The dispatch-relevant state of a constructed `MicroLLM`. -/
structure Facade where
  providerType : Option String := none
  providerOk : Bool := false
  providerError : Option String := none
  providerConfig : Option JObj := none
  routerProfiles : Option (List Profile) := none
  modelId : Option String := none
  modelPath : Option String := none
  maxTokens : Int := 4096
  localLoaded : Bool := false
  llmPath : Option String := none
  tags : Option (List String) := none

/-- `set(p.get("tags") or [])` membership, as the list of member strings
(non-string members can never equal a caller-supplied tag string and are
dropped; a string iterates to its characters, a dict to its keys). -/
def tagsOfJVal : Option JVal → List String
  | some (.jarr a) =>
      let rec strs : JArr → List String
        | .nil => []
        | .cons (.jstr s) rest => s :: strs rest
        | .cons _ rest => strs rest
      strs a
  | some (.jstr s) => if s = "" then [] else s.data.map (fun c => String.mk [c])
  | some (.jobj o) => if o.isNil then [] else o.keys
  | _ => []

/-- Python `int(v)` truncates toward zero. -/
def pyIntOfRat (q : ℚ) : Int :=
  if 0 ≤ q then ⌊q⌋ else ⌈q⌉

/-- The `Profile` view of one entry of `provider_profiles` (the fields the
router reads via `p.get`).  A non-dict entry, and a `priority` that
`int()` cannot convert, would raise inside `_sorted_profiles` at dispatch
time; no claim exercises those, and they are mapped to inert values here
(`ptype` that matches no factory / the absent-priority default). -/
def profileOfJVal : JVal → Profile
  | .jobj o =>
      { name := (pyStrVal (o.lookup "name")).getD "",
        ptype := pyStr ((o.lookup "type").getD .jnull),
        tags := tagsOfJVal (o.lookup "tags"),
        priority :=
          match o.lookup "priority" with
          | none => none
          | some (.jnum q) => some (pyIntOfRat q)
          | some (.jstr s) => pyParseInt s
          | some (.jbool b) => some (if b then 1 else 0)
          | some _ => none }
  | v => { name := "", ptype := pyStr v ++ "<non-dict>", tags := [], priority := none }

def profilesOfJArr : JArr → List Profile
  | .nil => []
  | .cons v rest => profileOfJVal v :: profilesOfJArr rest

/-- `float(provider.get("timeout", 30.0))` succeeds. -/
def timeoutOk (p : JObj) : Bool :=
  match p.lookup "timeout" with
  | none => true
  | some v => (pyFloat v).isSome

/-- `OpenAIProvider.__init__` credential checks:
`(str(provider.get("api_key", "")) or "").strip()` non-empty and
`(provider.get("model") or "").strip()` non-empty (a truthy non-string
`model` raises on `.strip()`, failing construction just the same). -/
def openaiCredsOk (p : JObj) : Bool :=
  pyStrip (pyStr ((p.lookup "api_key").getD (.jstr ""))) ≠ ""
    && (match p.lookup "model" with
        | some (.jstr s) => pyStrip s ≠ ""
        | _ => false)

/-- `shutil.which(str(provider.get("binary", default))) is not None`. -/
def binaryOk (w : World) (p : JObj) (dflt : String) : Bool :=
  let b := match p.lookup "binary" with
           | some v => pyStr v
           | none => dflt
  w.pathBinaries.contains (if b = "" then dflt else b)

/-- `list(provider.get("args") or [])` succeeds (truthy numbers/booleans are
not iterable). -/
def argsOk (p : JObj) : Bool :=
  match p.lookup "args" with
  | none => true
  | some v =>
      if pyTruthy v then
        match v with
        | .jarr _ => true
        | .jstr _ => true
        | .jobj _ => true
        | _ => false
      else true

/-- Whether constructing the external provider adapter for `type == t`
succeeds, per the adapter `__init__`s and the argument conversions in
`MicroLLM.__init__`. -/
def constructExternal (w : World) (t : String) (p : JObj) : Bool :=
  match t with
  | "lmstudio" => timeoutOk p
  | "ollama" => timeoutOk p
  | "openai" => timeoutOk p && openaiCredsOk p
  | "claude-cli" => timeoutOk p && binaryOk w p "claude" && argsOk p
  | "openai-cli" => timeoutOk p && binaryOk w p "openai" && argsOk p
  | _ => false

/-- The provider/router wiring of `MicroLLM.__init__` (the body of the big
`try`).  Returns the partial facade state plus the captured
`provider_local_model` and `provider_local_model_path` locals.  The stored
`providerError` stands for `str(e)` (its exact text is abridged). -/
def initProviderStep (w : World) (cfg : JObj) :
    Facade × Option String × Option String :=
  let router : Option (List Profile) :=
    match cfg.lookup "provider_profiles" with
    | some (.jarr a) => if a.isNil then none else some (profilesOfJArr a)
    | _ => none
  let st : Facade := { routerProfiles := router }
  match cfg.lookup "provider" with
  | some (.jobj p) =>
      if pyTruthyOpt (p.lookup "type") then
        let stp := { st with providerConfig := some p }
        match p.lookup "type" with
        | some (.jstr "local") =>
            let plm := match pyStrVal (p.lookup "model") with
                       | some s => if s = "" then none else some s
                       | none => none
            let plmp := match pyStrVal (p.lookup "model_path") with
                        | some s => if s = "" then none else some s
                        | none => none
            (stp, plm, plmp)
        | some (.jstr t) =>
            if t = "lmstudio" || t = "ollama" || t = "openai"
                || t = "claude-cli" || t = "openai-cli" then
              if constructExternal w t p then
                ({ stp with providerType := some t, providerOk := true },
                 none, none)
              else
                ({ stp with providerType := some t, providerOk := false,
                            providerError := some "construction failed" },
                 none, none)
            else (stp, none, none)
        | _ => (stp, none, none)
      else (st, none, none)
  | _ => (st, none, none)

/-- `MicroLLM._download_model`: prefer the legacy cached file, else resolve
an explicit `model_id` through the registry (unknown ids raise
`ValueError`), else the legacy download.  Downloads themselves are the
idempotent collaborator and succeed. -/
def downloadModel (w : World) (modelId : Option String) :
    Except String String :=
  if w.legacyCached then .ok "~/.cache/chi_llm/gemma-3-270m-it-Q4_K_M.gguf"
  else
    match modelId with
    | some mid =>
        match registryLookup mid with
        | none =>
            .error ("Unknown model: " ++ mid
              ++ ". Run 'chi-llm setup' to see available models.")
        | some m => .ok ("~/.cache/chi_llm/" ++ m.filename)
    | none => .ok "~/.cache/chi_llm/gemma-3-270m-it-Q4_K_M.gguf"

/-- `MicroLLM.__init__` (default arguments).

Step order follows the source: provider/router wiring from
`utils.load_config` (exceptions anywhere in that block are swallowed),
then model resolution through `ModelManager` and
`resolve_effective_model`, then — only when neither a provider instance
nor a router exists — `_ensure_model_loaded`, whose
`self.model_path or self._download_model()` can raise on an unknown
explicit model id.  (The `output_tokens` adoption from the registry is a
no-op: `ModelInfo` has no `output_tokens` attribute, so
`getattr(..., "output_tokens", None)` is always `None`.) -/
def microResolveStep (w : World)
    (sp : Facade × Option String × Option String) : Facade :=
  let st1 := sp.1
  let plm := sp.2.1
  let plmp := sp.2.2
  let mgr := managerLoadConfig w.mw
  match plmp with
  | some path =>
      let mt :=
        match st1.providerConfig with
        | some p =>
            match (p.lookup "output_tokens").bind pyIntVal with
            | some n => if 0 < n then n else st1.maxTokens
            | none => st1.maxTokens
        | none => st1.maxTokens
      { st1 with modelPath := some path, maxTokens := mt }
  | none =>
      let rd := resolve_effective_model mgr plm
      if rd.2 ≠ "legacy default" then { st1 with modelId := some rd.1 }
      else st1

/-- `MicroLLM._ensure_model_loaded`, run only when neither a provider
instance nor a router exists. -/
def microEnsure (w : World) (st2 : Facade) : Except String Facade :=
  if st2.providerOk = false ∧ st2.routerProfiles = none then
    match st2.modelPath with
    | some mp => .ok { st2 with localLoaded := true, llmPath := some mp }
    | none =>
        match downloadModel w st2.modelId with
        | .ok p => .ok { st2 with localLoaded := true, llmPath := some p }
        | .error e => .error e
  else .ok st2

def microInit (w : World) : Except String Facade :=
  microEnsure w (microResolveStep w
    (match load_config w.uw.proj none w.uw.envFile w.uw.ep with
     | .error _ => (({} : Facade), (none : Option String), (none : Option String))
     | .ok cfg => initProviderStep w cfg))

/-- The deferred-provider failure message:
`f"Provider '{t}' is configured but not available. {err or ''}".strip()`. -/
def providerUnavailableHint (t : String) (err : Option String) : String :=
  pyStrip ("Provider '" ++ t ++ "' is configured but not available. "
    ++ err.getD "")

/-- `MicroLLM.generate`: router first, then the provider instance, then the
configured-but-unavailable guard, then local inference.  `provCall` and
`localCall` are the outcome oracles for the external-provider call and the
local llama.cpp call. -/
def micro_generate (renv : RouterEnv) (provCall localCall : Except String String)
    (st : Facade) : Except String String :=
  match st.routerProfiles with
  | some ps =>
      match (router_generate renv ps st.tags).1 with
      | .ok t => .ok t
      | .error e => .error e
  | none =>
      if st.providerOk then provCall
      else
        match st.providerType with
        | some t => .error (providerUnavailableHint t st.providerError)
        | none =>
            match localCall with
            | .ok s => .ok (pyStrip s)
            | .error e => .error ("Generation failed: " ++ e)

/-- `MicroLLM.chat` (same dispatch shape as `generate`). -/
def micro_chat (renv : RouterEnv) (provCall localCall : Except String String)
    (st : Facade) : Except String String :=
  match st.routerProfiles with
  | some ps =>
      match (router_chat renv ps st.tags).1 with
      | .ok t => .ok t
      | .error e => .error e
  | none =>
      if st.providerOk then provCall
      else
        match st.providerType with
        | some t => .error (providerUnavailableHint t st.providerError)
        | none =>
            match localCall with
            | .ok s => .ok (pyStrip s)
            | .error e => .error ("Chat failed: " ++ e)

/-- `MicroLLM.complete` (same dispatch shape as `generate`). -/
def micro_complete (renv : RouterEnv) (provCall localCall : Except String String)
    (st : Facade) : Except String String :=
  match st.routerProfiles with
  | some ps =>
      match (router_complete renv ps st.tags).1 with
      | .ok t => .ok t
      | .error e => .error e
  | none =>
      if st.providerOk then provCall
      else
        match st.providerType with
        | some t => .error (providerUnavailableHint t st.providerError)
        | none =>
            match localCall with
            | .ok s => .ok (pyStrip s)
            | .error e => .error ("Completion failed: " ++ e)

/-! ## Auxiliary definitions used by the statements -/

/-- JSON objects have pairwise-distinct keys. -/
def keysNodup (o : JObj) : Prop :=
  o.keys.Nodup

/-- The value the highest-precedence (i.e. last applied) source of `srcs`
binds `k` to, if any. -/
def lastBind : List JObj → String → Option JVal
  | [], _ => none
  | s :: rest, k =>
      match lastBind rest k with
      | some v => some v
      | none => s.lookup k

/-- The value under `config["provider"][k]`, when `provider` is a dict. -/
def providerField (c : JObj) (k : String) : Option JVal :=
  match c.lookup "provider" with
  | some (.jobj p) => p.lookup k
  | _ => none

/-- World of claim C1's counterexample: `CHI_LLM_MODEL` names an id absent
from the registry, nothing else is configured, no cache. -/
def c1CexWorld : World :=
  { mw := { envModel := some "no-such-model" } }

/-- A config file that explicitly sets `default_model`. -/
def explicitCfg (mid : String) : JObj :=
  jo [("default_model", .jstr mid)]

/-- World of claim C1's amended theorem: a CWD `.chi_llm.json` explicitly
sets `default_model := mid`.  Both resolvers see the same file (for
`ModelManager` it is the `local` and the walked-up `project` source), the
legacy cache is absent and nothing else is configured. -/
def c1World (mid : String) : World :=
  { uw := { proj := some (explicitCfg mid) },
    mw := { srcLocal := some (explicitCfg mid),
            srcProject := some (explicitCfg mid) } }

/-- World of claim C8's counterexample: `CHI_LLM_CONFIG` holds inline JSON
selecting the `ollama` provider with a `timeout` that `float()` rejects.
(`ModelManager` sees no `env` source: the inline JSON is not an existing
path.)  No `default_model` is set anywhere. -/
def c8CexWorld : World :=
  { uw := { envFile := some (jo [("provider", .jobj (jo
      [("type", .jstr "ollama"), ("host", .jstr "127.0.0.1"),
       ("port", .jnum 11434), ("timeout", .jstr "abc")]))]) } }

/-- World of the spec's C8 scenario: environment variables select the
`ollama` provider with host/port, nothing else is configured. -/
def c8ScenarioWorld : World :=
  { uw := { ep := { ptype := some "ollama", host := some "127.0.0.1",
                    port := some "11434" } } }

/-- The facade state C1's counterexample world constructs. -/
def c1CexState : Facade :=
  match microInit c1CexWorld with
  | .ok st => st
  | .error _ => {}

/-- The facade state C8's counterexample world constructs. -/
def c8CexState : Facade :=
  match microInit c8CexWorld with
  | .ok st => st
  | .error _ => {}

/-- The facade state of the spec's C8 scenario. -/
def c8ScenState : Facade :=
  match microInit c8ScenarioWorld with
  | .ok st => st
  | .error _ => {}

/-- Router scenario profiles: a type without a factory, a profile whose
factory raises, a profile whose `generate` raises, and one that succeeds —
priorities force this order. -/
def q0 : Profile :=
  { name := "no-factory", ptype := "anthropic", tags := [], priority := some 1 }

def qc : Profile :=
  { name := "construct-fails", ptype := "ollama", tags := [], priority := some 2 }

def q1 : Profile :=
  { name := "call-fails", ptype := "ollama", tags := [], priority := some 3 }

def q2 : Profile :=
  { name := "succeeds", ptype := "lmstudio", tags := [], priority := some 4 }

/-- Router scenario environment matching `q0`–`q2`. -/
def envScenario : RouterEnv :=
  { hasFactory := fun t => t = "ollama" || t = "lmstudio",
    constructOk := fun p => p.name ≠ "construct-fails",
    opGenerate := fun p => if p.name = "succeeds" then some "text-2" else none,
    opChat := fun _ => none,
    opComplete := fun _ => none }

/-- An environment whose registry has no factory at all. -/
def envNoFactory : RouterEnv :=
  { hasFactory := fun _ => false, constructOk := fun _ => true,
    opGenerate := fun _ => none, opChat := fun _ => none,
    opComplete := fun _ => none }

/-- An environment where every `generate`/`chat`/`complete` call raises. -/
def envAllFail : RouterEnv :=
  { hasFactory := fun _ => true, constructOk := fun _ => true,
    opGenerate := fun _ => none, opChat := fun _ => none,
    opComplete := fun _ => none }

/-- Tag-routing witness profiles. -/
def pFast : Profile :=
  { name := "fast-profile", ptype := "ollama", tags := ["fast"],
    priority := some 10 }

def pQuality : Profile :=
  { name := "quality-profile", ptype := "lmstudio", tags := ["quality"],
    priority := some 20 }

/-- Facade state of a provider that was configured but failed to construct. -/
def st9 : Facade :=
  { providerType := some "ollama", providerOk := false,
    providerError := some "construction failed" }

/-- Witness inputs for the precedence claim: a discovered project file, an
explicit config path and a `CHI_LLM_CONFIG` dict contending for keys, plus a
`CHI_LLM_PROVIDER_HOST` override. -/
def projW : JObj :=
  jo [("a", .jnum 1), ("provider", .jobj (jo [("host", .jstr "ph")]))]

def customW : JObj :=
  jo [("a", .jnum 2)]

def envcW : JObj :=
  jo [("b", .jnum 3)]

def epW : EnvProv :=
  { host := some "eh" }

/-- Witness `ModelManager` world: a CWD file and an explicit config path
both set `default_model`; the explicit path is applied later and wins. -/
def mwW : ManagerWorld :=
  { srcLocal := some (jo [("default_model", .jstr "x")]),
    srcCustom := some (jo [("default_model", .jstr "y")]) }

/-- The configuration the witness inputs resolve to. -/
def LW : JObj :=
  match load_config (some projW) (some customW) (some envcW) epW with
  | .ok c => c
  | .error _ => .nil

/-- Concrete deep-merge base for the C7 witness. -/
def c7Base : JObj :=
  jo [("provider", .jobj (jo [("host", .jstr "h1")])),
      ("xs", .jarr (ja [.jnum 1]))]

/-- Concrete deep-merge override for the C7 witness. -/
def c7Over : JObj :=
  jo [("provider", .jobj (jo [("model", .jstr "m2")])),
      ("xs", .jarr (ja [.jnum 2]))]

/-! ## Dictionary and deep-merge lemmas -/

/-- Structural induction for `JObj` alone (the mutual recursor has several
motives, which the `induction` tactic cannot use directly). -/
theorem JObj.inductionOn {motive : JObj → Prop} (o : JObj)
    (hn : motive .nil)
    (hc : ∀ k v rest, motive rest → motive (.cons k v rest)) : motive o :=
  match o with
  | .nil => hn
  | .cons k v r => hc k v r (JObj.inductionOn r hn hc)

theorem lookup_set_self (o : JObj) (k : String) (v : JVal) :
    (o.set k v).lookup k = some v := by
  induction o using JObj.inductionOn with
  | hn => simp [JObj.set, JObj.lookup]
  | hc k' v' rest ih =>
      by_cases h : k' = k
      · simp [JObj.set, JObj.lookup, h]
      · simp [JObj.set, JObj.lookup, h, ih]

theorem lookup_set_ne (o : JObj) {k k' : String} (v : JVal) (h : k' ≠ k) :
    (o.set k' v).lookup k = o.lookup k := by
  induction o using JObj.inductionOn with
  | hn => simp [JObj.set, JObj.lookup, h]
  | hc k'' v'' rest ih =>
      by_cases h' : k'' = k'
      · subst h'; simp [JObj.set, JObj.lookup, h]
      · simp [JObj.set, JObj.lookup, h', ih]

theorem lookup_cons_resolve {k k' : String} {v : JVal} {rest : JObj} :
    (JObj.cons k' v rest).lookup k
      = if k' = k then some v else rest.lookup k := rfl

theorem lookup_none_keys {o : JObj} {k : String} (h : o.lookup k = none) :
    k ∉ o.keys := by
  induction o using JObj.inductionOn with
  | hn => simp [JObj.keys]
  | hc k' v rest ih =>
      rw [lookup_cons_resolve] at h
      by_cases hk : k' = k
      · simp [hk] at h
      · simp [JObj.keys, ih (by simpa [hk] using h)]
        exact fun hkk => hk hkk.symm

theorem keys_lookup_none {o : JObj} {k : String} (h : k ∉ o.keys) :
    o.lookup k = none := by
  induction o using JObj.inductionOn with
  | hn => rfl
  | hc k' v rest ih =>
      simp [JObj.keys] at h
      rw [lookup_cons_resolve, if_neg (fun hh => h.1 hh.symm), ih h.2]

theorem keysNodup_cons {k : String} {v : JVal} {rest : JObj}
    (h : keysNodup (JObj.cons k v rest)) : k ∉ rest.keys ∧ keysNodup rest :=
  List.nodup_cons.mp h

theorem lookup_update_notbound (b : JObj) {k : String}
    (hb : b.lookup k = none) (a : JObj) :
    (a.update b).lookup k = a.lookup k := by
  induction b using JObj.inductionOn generalizing a with
  | hn => rfl
  | hc k' v rest ih =>
      rw [lookup_cons_resolve] at hb
      by_cases hk : k' = k
      · simp [hk] at hb
      · rw [if_neg hk] at hb
        show ((a.set k' v).update rest).lookup k = a.lookup k
        rw [ih hb, lookup_set_ne _ _ hk]

theorem lookup_update_bound (b : JObj) {k : String} {v : JVal}
    (hnd : keysNodup b) (hb : b.lookup k = some v) (a : JObj) :
    (a.update b).lookup k = some v := by
  induction b using JObj.inductionOn generalizing a with
  | hn => simp [JObj.lookup] at hb
  | hc k' v' rest ih =>
      rw [lookup_cons_resolve] at hb
      have hnd' : keysNodup rest := (keysNodup_cons hnd).2
      by_cases hk : k' = k
      · rw [if_pos hk] at hb
        have hv' : v' = v := Option.some.inj hb
        have hk2 := (keysNodup_cons hnd).1
        rw [hk] at hk2
        have hrest : rest.lookup k = none := keys_lookup_none hk2
        show ((a.set k' v').update rest).lookup k = some v
        rw [lookup_update_notbound rest hrest, hk, hv', lookup_set_self]
      · rw [if_neg hk] at hb
        exact ih hnd' hb _

theorem deepMergeVal_nonobj {bv : Option JVal} {v : JVal}
    (h : v.isObj = false) : deepMergeVal bv v = v := by
  cases bv with
  | none => cases v <;> rfl
  | some b => cases b <;> cases v <;> first | rfl | simp [JVal.isObj] at h

theorem lookup_deepMerge_notbound {o : JObj} {k : String}
    (h : o.lookup k = none) (b : JObj) :
    (deepMergeObj b o).lookup k = b.lookup k := by
  induction o using JObj.inductionOn generalizing b with
  | hn => rfl
  | hc k' v rest ih =>
      rw [lookup_cons_resolve] at h
      by_cases hk : k' = k
      · simp [hk] at h
      · rw [if_neg hk] at h
        show (deepMergeObj (b.set k' _) rest).lookup k = b.lookup k
        rw [ih h, lookup_set_ne _ _ hk]

theorem lookup_deepMerge_bound_nonobj {o : JObj} {k : String} {v : JVal}
    (hnd : keysNodup o) (hb : o.lookup k = some v) (hv : v.isObj = false)
    (b : JObj) : (deepMergeObj b o).lookup k = some v := by
  induction o using JObj.inductionOn generalizing b with
  | hn => simp [JObj.lookup] at hb
  | hc k' v' rest ih =>
      rw [lookup_cons_resolve] at hb
      have hnd' : keysNodup rest := (keysNodup_cons hnd).2
      by_cases hk : k' = k
      · rw [if_pos hk] at hb
        have hv' : v' = v := Option.some.inj hb
        have hk2 := (keysNodup_cons hnd).1
        rw [hk] at hk2
        have hrest : rest.lookup k = none := keys_lookup_none hk2
        show (deepMergeObj (b.set k' (deepMergeVal (b.lookup k') v')) rest).lookup k
            = some v
        rw [lookup_deepMerge_notbound hrest, hk, hv',
          deepMergeVal_nonobj hv, lookup_set_self]
      · rw [if_neg hk] at hb
        exact ih hnd' hb _

theorem lookup_deepMerge_bound_obj {o : JObj} {k : String} {bo vo : JObj}
    (hnd : keysNodup o) (hov : o.lookup k = some (.jobj vo)) (b : JObj)
    (hbase : b.lookup k = some (.jobj bo)) :
    (deepMergeObj b o).lookup k = some (.jobj (deepMergeObj bo vo)) := by
  induction o using JObj.inductionOn generalizing b with
  | hn => simp [JObj.lookup] at hov
  | hc k' v' rest ih =>
      rw [lookup_cons_resolve] at hov
      have hnd' : keysNodup rest := (keysNodup_cons hnd).2
      by_cases hk : k' = k
      · rw [if_pos hk] at hov
        have hv' : v' = .jobj vo := Option.some.inj hov
        have hk2 := (keysNodup_cons hnd).1
        rw [hk] at hk2
        have hrest : rest.lookup k = none := keys_lookup_none hk2
        show (deepMergeObj (b.set k' (deepMergeVal (b.lookup k') v')) rest).lookup k
            = some (.jobj (deepMergeObj bo vo))
        rw [lookup_deepMerge_notbound hrest, hk, hv', hbase, lookup_set_self]
        rfl
      · rw [if_neg hk] at hov
        refine ih hnd' hov _ ?_
        rw [lookup_set_ne _ _ hk, hbase]

/-! ## Claim theorems -/

/-- C7: for all dictionaries `base` and `overrides` (with the unique keys
JSON guarantees), `_deep_merge` recurses into keys whose values are mappings
in both inputs, fully replaces any non-mapping leaf with the override's
value (in particular it replaces lists rather than concatenating them), and
leaves keys the override does not bind untouched. -/
theorem claimC7_deep_merge (b o : JObj) (k : String) (hnd : keysNodup o) :
    (∀ bo vo, b.lookup k = some (.jobj bo) → o.lookup k = some (.jobj vo) →
        (deepMergeObj b o).lookup k = some (.jobj (deepMergeObj bo vo)))
    ∧ (∀ v, o.lookup k = some v → v.isObj = false →
        (deepMergeObj b o).lookup k = some v)
    ∧ (∀ xs, o.lookup k = some (.jarr xs) →
        (deepMergeObj b o).lookup k = some (.jarr xs))
    ∧ (o.lookup k = none → (deepMergeObj b o).lookup k = b.lookup k) := by
  refine ⟨fun bo vo hb ho => lookup_deepMerge_bound_obj hnd ho b hb,
          fun v ho hv => lookup_deepMerge_bound_nonobj hnd ho hv b,
          fun xs ho => lookup_deepMerge_bound_nonobj hnd ho rfl b,
          fun ho => lookup_deepMerge_notbound ho b⟩

/-- C7 witness: merging `{provider: {host: "h1"}, xs: [1]}` with
`{provider: {model: "m2"}, xs: [2]}` keeps both provider fields and
replaces the list. -/
theorem claimC7_deep_merge_witness :
    (deepMergeObj c7Base c7Over).lookup "provider"
        = some (.jobj (jo [("host", .jstr "h1"), ("model", .jstr "m2")]))
      ∧ (deepMergeObj c7Base c7Over).lookup "xs" = some (.jarr (ja [.jnum 2])) := by
  constructor
  · exact (claimC7_deep_merge c7Base c7Over "provider"
      (by simp [keysNodup, c7Over, jo, JObj.keys])).1
      (jo [("host", .jstr "h1")]) (jo [("model", .jstr "m2")]) rfl rfl
  · exact (claimC7_deep_merge c7Base c7Over "xs"
      (by simp [keysNodup, c7Over, jo, JObj.keys])).2.2.1 (ja [.jnum 2]) rfl

/-- C2: `resolve_effective_model` is a pure function of the resolved manager
configuration and the `provider_local_model` argument — two calls on
identical inputs yield the identical `(id, reason)` pair, and the reason is
always one of the three documented provenance labels. -/
theorem claimC2_resolve_deterministic (mc : ManagerConfig)
    (plm : Option String) :
    resolve_effective_model mc plm = resolve_effective_model mc plm
    ∧ (resolve_effective_model mc plm).2 ∈
        (["explicit default", "provider local fallback", "legacy default"]
          : List String) := by
  refine ⟨rfl, ?_⟩
  unfold resolve_effective_model
  cases (if mc.explicitDefault then effectiveDefault mc else none) with
  | some mid => simp
  | none => cases plm <;> simp

/-- The RAM budgets of the registry entries the C6 reasoning touches. -/
theorem ram_gemma270m : gemma270m.recommended_ram_gb = 2 := by
  norm_num [gemma270m]

theorem ram_qwen3_0_6b : qwen3_0_6b.recommended_ram_gb = 3 / 2 := by
  norm_num [qwen3_0_6b]

theorem ram_qwen3_1_7b : qwen3_1_7b.recommended_ram_gb = 3 := by
  norm_num [qwen3_1_7b]

theorem ram_phi3_mini : phi3_mini.recommended_ram_gb = 5 := by
  norm_num [phi3_mini]

/-- The `recommended`-tagged registry entries are exactly `qwen3-1.7b`
(3.0 GB) and `phi3-mini` (5.0 GB). -/
theorem recommended_entries :
    ∀ m ∈ MODELS, m.tags.contains "recommended" = true →
      m = qwen3_1_7b ∨ m = phi3_mini := by
  intro m hm ht
  unfold MODELS at hm
  fin_cases hm <;>
    simp_all [gemma270m, qwen3_0_6b, qwen3_1_7b, stablelm_2_1_6b, gemma2_2b,
      phi2_2_7b, stablelm_3b, phi3_mini, qwen3_8b, gemma2_9b,
      liquid_lfm2_1_2b, deepseek_r1_qwen_1_5b, qwen3_4b_thinking, qwen3_4b,
      qwen2_5_coder_0_5b, qwen2_5_coder_1_5b, qwen2_5_coder_3b,
      qwen2_5_coder_7b]

/-- When the available RAM is below the threshold for `qwen3-1.7b`, no
`recommended`-tagged entry fits. -/
theorem no_recommended_fit {r : ℚ} (h : ¬ (3 : ℚ) ≤ r * 0.7) :
    ¬ ∃ m ∈ MODELS, m.tags.contains "recommended" = true
        ∧ m.recommended_ram_gb ≤ r * 0.7 := by
  rintro ⟨m, hm, ht, hf⟩
  rcases recommended_entries m hm ht with rfl | rfl
  · exact h (ram_qwen3_1_7b ▸ hf)
  · exact h (le_trans (by norm_num) (ram_phi3_mini ▸ hf))

/-- The `recommended`-tagged registry entries in iteration order are
`qwen3-1.7b` (3.0 GB) then `phi3-mini` (5.0 GB), so the first-fit loop of
`recommend_model` resolves to a closed form. -/
theorem recommend_model_closed_form (r : ℚ) :
    recommend_model r
      = if (3 : ℚ) ≤ r * 0.7 then qwen3_1_7b else gemma270m := by
  unfold recommend_model MODELS
  by_cases h : (3 : ℚ) ≤ r * 0.7
  · rw [if_pos h,
      List.find?_cons_of_neg _ (by simp [gemma270m]),
      List.find?_cons_of_neg _ (by simp [qwen3_0_6b]),
      List.find?_cons_of_pos _
        (by rw [ram_qwen3_1_7b]; simp [qwen3_1_7b, h])]
  · rw [if_neg h]
    have h5 : ¬ (5 : ℚ) ≤ r * 0.7 := fun hh => h (le_trans (by norm_num) hh)
    rw [List.find?_cons_of_neg _ (by simp [gemma270m]),
      List.find?_cons_of_neg _ (by simp [qwen3_0_6b]),
      List.find?_cons_of_neg _ (by rw [ram_qwen3_1_7b]; simp [qwen3_1_7b, h]),
      List.find?_cons_of_neg _ (by simp [stablelm_2_1_6b]),
      List.find?_cons_of_neg _ (by simp [gemma2_2b]),
      List.find?_cons_of_neg _ (by simp [phi2_2_7b]),
      List.find?_cons_of_neg _ (by simp [stablelm_3b]),
      List.find?_cons_of_neg _ (by rw [ram_phi3_mini]; simp [phi3_mini, h5]),
      List.find?_cons_of_neg _ (by simp [qwen3_8b]),
      List.find?_cons_of_neg _ (by simp [gemma2_9b]),
      List.find?_cons_of_neg _ (by simp [liquid_lfm2_1_2b]),
      List.find?_cons_of_neg _ (by simp [deepseek_r1_qwen_1_5b]),
      List.find?_cons_of_neg _ (by simp [qwen3_4b_thinking]),
      List.find?_cons_of_neg _ (by simp [qwen3_4b]),
      List.find?_cons_of_neg _ (by simp [qwen2_5_coder_0_5b]),
      List.find?_cons_of_neg _ (by simp [qwen2_5_coder_1_5b]),
      List.find?_cons_of_neg _ (by simp [qwen2_5_coder_3b]),
      List.find?_cons_of_neg _ (by simp [qwen2_5_coder_7b]),
      List.find?_nil]

/-- C6 counterexample: with 2 GB of available RAM no `recommended`-tagged
entry fits within the 0.7 safety margin, and `recommend_model` falls back to
the built-in default `gemma-270m` (2.0 GB) — not to the smallest-RAM entry
of the registry (`qwen3-0.6b` needs only 1.5 GB). -/
theorem claimC6_counterexample :
    recommend_model 2 = gemma270m
    ∧ (¬ ∃ m ∈ MODELS, m.tags.contains "recommended" = true
          ∧ m.recommended_ram_gb ≤ (2 : ℚ) * 0.7)
    ∧ qwen3_0_6b ∈ MODELS
    ∧ qwen3_0_6b.recommended_ram_gb < gemma270m.recommended_ram_gb := by
  refine ⟨?_, no_recommended_fit (by norm_num), ?_, ?_⟩
  · rw [recommend_model_closed_form, if_neg (by norm_num)]
  · exact List.mem_cons_of_mem _ (List.mem_cons_self _ _)
  · rw [ram_qwen3_0_6b, ram_gemma270m]; norm_num

/-- C6 (amended): `recommend_model` returns the lowest-RAM
`recommended`-tagged entry whose `recommended_ram_gb` fits within
`available_ram_gb * 0.7`; when no tagged entry fits it falls back to the
built-in default `gemma-270m` — not to the smallest-RAM entry of the
registry. -/
theorem claimC6_recommend_model (r : ℚ) :
    ((∃ m ∈ MODELS, m.tags.contains "recommended" = true
        ∧ m.recommended_ram_gb ≤ r * 0.7) →
      (recommend_model r).tags.contains "recommended" = true
      ∧ (recommend_model r).recommended_ram_gb ≤ r * 0.7
      ∧ ∀ m ∈ MODELS, m.tags.contains "recommended" = true →
          m.recommended_ram_gb ≤ r * 0.7 →
          (recommend_model r).recommended_ram_gb ≤ m.recommended_ram_gb)
    ∧ ((¬ ∃ m ∈ MODELS, m.tags.contains "recommended" = true
          ∧ m.recommended_ram_gb ≤ r * 0.7) →
      recommend_model r = gemma270m) := by
  by_cases h : (3 : ℚ) ≤ r * 0.7
  · rw [recommend_model_closed_form, if_pos h]
    refine ⟨fun _ => ⟨by simp [qwen3_1_7b], ram_qwen3_1_7b ▸ h, ?_⟩,
            fun hne => absurd ⟨qwen3_1_7b, ?_, by simp [qwen3_1_7b],
              ram_qwen3_1_7b ▸ h⟩ hne⟩
    · intro m hm ht _
      rcases recommended_entries m hm ht with rfl | rfl
      · exact le_refl _
      · rw [ram_qwen3_1_7b, ram_phi3_mini]; norm_num
    · exact List.mem_cons_of_mem _
        (List.mem_cons_of_mem _ (List.mem_cons_self _ _))
  · rw [recommend_model_closed_form, if_neg h]
    exact ⟨fun hex => absurd hex (no_recommended_fit h), fun _ => rfl⟩

/-- C6 witness: with 8 GB a tagged entry fits and the theorem yields a
`recommended`-tagged result; with 2 GB no tagged entry fits and the theorem
yields the `gemma-270m` fallback. -/
theorem claimC6_recommend_model_witness :
    (recommend_model 8).tags.contains "recommended" = true
    ∧ recommend_model 2 = gemma270m :=
  ⟨((claimC6_recommend_model 8).1 ⟨qwen3_1_7b,
      List.mem_cons_of_mem _
        (List.mem_cons_of_mem _ (List.mem_cons_self _ _)),
      by simp [qwen3_1_7b], by rw [ram_qwen3_1_7b]; norm_num⟩).1,
   (claimC6_recommend_model 2).2 (no_recommended_fit (by norm_num))⟩

/-! ## Router lemmas and claims C4, C5, C10 -/

theorem isCandidate_no_tags (p : Profile) : isCandidate (wantedOf none) p = true := by
  rfl

theorem sorted_profiles_no_tags_perm (ps : List Profile) :
    (sorted_profiles ps none).Perm ps := by
  unfold sorted_profiles
  rw [List.filter_eq_self.mpr (fun p _ => isCandidate_no_tags p)]
  exact List.perm_insertionSort priLe ps

theorem sorted_profiles_sorted (ps : List Profile) (ts : Option (List String)) :
    List.Pairwise priLe (sorted_profiles ps ts) :=
  List.sorted_insertionSort priLe _

theorem mem_sorted_profiles {ps : List Profile} {ts : List String}
    (hts : ts ≠ []) (p : Profile) :
    p ∈ sorted_profiles ps (some ts) ↔ p ∈ ps ∧ intersects p.tags ts = true := by
  unfold sorted_profiles
  rw [(List.perm_insertionSort priLe _).mem_iff, List.mem_filter]
  have : isCandidate (wantedOf (some ts)) p = intersects p.tags ts := by
    unfold isCandidate wantedOf
    cases ts with
    | nil => exact absurd rfl hts
    | cons t ts' => rfl
  rw [this]

theorem mem_sorted_profiles_mem {ps : List Profile} {ts : Option (List String)}
    {p : Profile} (h : p ∈ sorted_profiles ps ts) : p ∈ ps := by
  unfold sorted_profiles at h
  exact (List.mem_filter.mp ((List.perm_insertionSort priLe _).mem_iff.mp h)).1

theorem dispatchGo_trace_mem (env : RouterEnv) (op : Profile → Option String) :
    ∀ l p, p ∈ (dispatchGo env op l).2 → p ∈ l := by
  intro l
  induction l with
  | nil => intro p h; simp [dispatchGo] at h
  | cons a rest ih =>
      intro p h
      unfold dispatchGo at h
      by_cases hf : env.hasFactory a.ptype
      · rw [if_pos hf] at h
        by_cases hc : env.constructOk a
        · rw [if_pos hc] at h
          cases hop : op a with
          | some t =>
              rw [hop] at h
              simp at h
              simp [h]
          | none =>
              rw [hop] at h
              simp at h
              rcases h with h | h
              · simp [h]
              · exact List.mem_cons_of_mem _ (ih p h)
        · rw [if_neg hc] at h
          exact List.mem_cons_of_mem _ (ih p h)
      · rw [if_neg hf] at h
        exact List.mem_cons_of_mem _ (ih p h)

theorem dispatchGo_all_fail (env : RouterEnv) (op : Profile → Option String) :
    ∀ l, (∀ p ∈ l, op p = none) → (dispatchGo env op l).1 = none := by
  intro l
  induction l with
  | nil => intro _; rfl
  | cons a rest ih =>
      intro h
      unfold dispatchGo
      by_cases hf : env.hasFactory a.ptype
      · rw [if_pos hf]
        by_cases hc : env.constructOk a
        · rw [if_pos hc, h a (List.mem_cons_self _ _)]
          exact ih (fun p hp => h p (List.mem_cons_of_mem _ hp))
        · rw [if_neg hc]
          exact ih (fun p hp => h p (List.mem_cons_of_mem _ hp))
      · rw [if_neg hf]
        exact ih (fun p hp => h p (List.mem_cons_of_mem _ hp))

theorem dispatchGo_no_factory (env : RouterEnv) (op : Profile → Option String) :
    ∀ l, (∀ p ∈ l, env.hasFactory p.ptype = false) →
      dispatchGo env op l = (none, []) := by
  intro l
  induction l with
  | nil => intro _; rfl
  | cons a rest ih =>
      intro h
      unfold dispatchGo
      rw [if_neg (by simp [h a (List.mem_cons_self _ _)])]
      exact ih (fun p hp => h p (List.mem_cons_of_mem _ hp))

theorem router_generate_trace (env : RouterEnv) (ps : List Profile)
    (ts : Option (List String)) :
    (router_generate env ps ts).2
      = (dispatchGo env env.opGenerate (sorted_profiles ps ts)).2 := by
  unfold router_generate
  rcases h : dispatchGo env env.opGenerate (sorted_profiles ps ts) with ⟨r, tr⟩
  cases r <;> simp

/-- C4: when the caller supplies no tags (or an empty list), every
configured profile is a candidate; with non-empty tags exactly the profiles
whose tag set intersects them are candidates; candidates are ordered
ascending by effective integer priority (missing priority = 100); and a
profile whose tags do not intersect the supplied non-empty tags is never
invoked by a `generate` dispatch. -/
theorem claimC4_tag_routing (ps : List Profile) (ts : List String)
    (env : RouterEnv) :
    (sorted_profiles ps none).Perm ps
    ∧ sorted_profiles ps (some []) = sorted_profiles ps none
    ∧ List.Pairwise (fun a b => effPriority a ≤ effPriority b)
        (sorted_profiles ps none)
    ∧ (ts ≠ [] → ∀ p, p ∈ sorted_profiles ps (some ts)
        ↔ p ∈ ps ∧ intersects p.tags ts = true)
    ∧ List.Pairwise (fun a b => effPriority a ≤ effPriority b)
        (sorted_profiles ps (some ts))
    ∧ (ts ≠ [] → ∀ p ∈ (router_generate env ps (some ts)).2,
        intersects p.tags ts = true) := by
  refine ⟨sorted_profiles_no_tags_perm ps, rfl, sorted_profiles_sorted ps none,
    fun hts p => mem_sorted_profiles hts p, sorted_profiles_sorted ps (some ts),
    fun hts p hp => ?_⟩
  rw [router_generate_trace] at hp
  exact ((mem_sorted_profiles hts p).mp
    (dispatchGo_trace_mem env env.opGenerate _ p hp)).2

/-- C4 witness: with profiles tagged `fast` and `quality` and the call tags
`["quality"]`, only the quality-tagged profile is a candidate. -/
theorem claimC4_tag_routing_witness :
    pQuality ∈ sorted_profiles [pFast, pQuality] (some ["quality"])
    ∧ pFast ∉ sorted_profiles [pFast, pQuality] (some ["quality"]) := by
  have h := claimC4_tag_routing [pFast, pQuality] ["quality"] envNoFactory
  constructor
  · exact (h.2.2.2.1 (by decide) pQuality).mpr
      ⟨List.mem_cons_of_mem _ (List.mem_cons_self _ _), by decide⟩
  · intro hmem
    have := ((h.2.2.2.1 (by decide) pFast).mp hmem).2
    simp [pFast, intersects] at this

/-- C5: in the four-profile scenario — a type without a factory, a profile
whose factory raises, a failing profile, a succeeding one — the dispatch
returns the second invocable candidate's text, the failing candidate is
invoked exactly once (no retry), and the factory-less/construction-failing
profiles are skipped without aborting; and in general, when every
candidate's `generate` raises, a single aggregate `RuntimeError` is
raised. -/
theorem claimC5_router_fallback :
    router_generate envScenario [q0, qc, q1, q2] none
        = (.ok "text-2", [q1, q2])
    ∧ (router_generate envScenario [q0, qc, q1, q2] none).2.count q1 = 1
    ∧ (∀ env ps ts,
        (∀ p ∈ sorted_profiles ps ts, env.opGenerate p = none) →
        (router_generate env ps ts).1
          = .error "All providers failed for generate()") := by
  refine ⟨rfl, rfl, fun env ps ts h => ?_⟩
  unfold router_generate
  rcases hd : dispatchGo env env.opGenerate (sorted_profiles ps ts) with ⟨r, tr⟩
  have : r = none := by
    have := dispatchGo_all_fail env env.opGenerate (sorted_profiles ps ts) h
    rw [hd] at this
    exact this
  rw [this]

/-- C5 witness: the aggregate-failure branch at a concrete environment where
every candidate's call raises. -/
theorem claimC5_router_fallback_witness :
    (router_generate envAllFail [pFast] none).1
      = .error "All providers failed for generate()" :=
  claimC5_router_fallback.2.2 envAllFail [pFast] none (fun _ _ => rfl)

/-- C10: whenever the candidate set of a dispatch is empty — the profile
list is empty, no profile's tags intersect the caller's non-empty tags, or
no candidate's type has a factory — `generate`, `chat` and `complete` all
raise the aggregate `RuntimeError` (they never return a string). -/
theorem claimC10_router_exhausted (env : RouterEnv) (ps : List Profile)
    (ts : Option (List String))
    (h : ps = []
      ∨ (∃ ts', ts = some ts' ∧ ts' ≠ []
          ∧ ∀ p ∈ ps, intersects p.tags ts' = false)
      ∨ (∀ p ∈ sorted_profiles ps ts, env.hasFactory p.ptype = false)) :
    (router_generate env ps ts).1 = .error "All providers failed for generate()"
    ∧ (router_chat env ps ts).1 = .error "All providers failed for chat()"
    ∧ (router_complete env ps ts).1
        = .error "All providers failed for complete()" := by
  have key : ∀ op, (dispatchGo env op (sorted_profiles ps ts)).1 = none := by
    intro op
    rcases h with rfl | ⟨ts', rfl, hne, hno⟩ | hnf
    · rfl
    · have hempty : sorted_profiles ps (some ts') = [] := by
        rcases he : sorted_profiles ps (some ts') with _ | ⟨p, rest⟩
        · rfl
        · exfalso
          have hp : p ∈ sorted_profiles ps (some ts') := by
            rw [he]; exact List.mem_cons_self _ _
          have := (mem_sorted_profiles hne p).mp hp
          rw [hno p this.1] at this
          exact Bool.false_ne_true this.2
      rw [hempty]; rfl
    · rw [dispatchGo_no_factory env op _ hnf]
  refine ⟨?_, ?_, ?_⟩
  · unfold router_generate
    rcases hd : dispatchGo env env.opGenerate (sorted_profiles ps ts) with ⟨r, tr⟩
    have hr := key env.opGenerate
    rw [hd] at hr
    simp at hr
    subst hr
    rfl
  · unfold router_chat
    rcases hd : dispatchGo env env.opChat (sorted_profiles ps ts) with ⟨r, tr⟩
    have hr := key env.opChat
    rw [hd] at hr
    simp at hr
    subst hr
    rfl
  · unfold router_complete
    rcases hd : dispatchGo env env.opComplete (sorted_profiles ps ts) with ⟨r, tr⟩
    have hr := key env.opComplete
    rw [hd] at hr
    simp at hr
    subst hr
    rfl

/-- C10 witness: a non-empty profile list none of whose types has a factory
exhausts all three operations. -/
theorem claimC10_router_exhausted_witness :
    (router_generate envNoFactory [pFast, pQuality] none).1
      = .error "All providers failed for generate()" :=
  (claimC10_router_exhausted envNoFactory [pFast, pQuality] none
    (.inr (.inr (fun _ _ => rfl)))).1

/-! ## Claim C9: configured-but-unavailable provider -/

theorem dropWhile_cons_neg {p : Char → Bool} {a : Char} {l : List Char}
    (h : p a = false) : List.dropWhile p (a :: l) = a :: l := by
  rw [List.dropWhile_cons, h]
  simp

theorem dropWhile_append_left_nonempty {p : Char → Bool} {xs ys : List Char}
    (h : (List.dropWhile p xs).isEmpty = false) :
    List.dropWhile p (xs ++ ys) = List.dropWhile p xs ++ ys := by
  rw [List.dropWhile_append, if_neg (by simp [h])]

/-- Stripping the hint never touches its prefix: the message always reads
`Provider '<type>'...`, so it names the configured provider type. -/
theorem hint_names_type (t : String) (err : Option String) :
    ∃ rest : List Char,
      (providerUnavailableHint t err).data
        = "Provider '".data ++ (t.data ++ rest) := by
  have hsplit : ("Provider '" ++ t ++ "' is configured but not available. "
        ++ err.getD "").data
      = "Provider '".data ++ (t.data
          ++ ("' is configured but not available. ".data ++ (err.getD "").data)) := by
    simp [String.data_append, List.append_assoc]
  have hstep1 : List.dropWhile isPyWs ("Provider '".data ++ (t.data
        ++ ("' is configured but not available. ".data ++ (err.getD "").data)))
      = "Provider '".data ++ (t.data
          ++ ("' is configured but not available. ".data ++ (err.getD "").data)) := by
    show List.dropWhile isPyWs ('P' :: _) = _
    rw [dropWhile_cons_neg (by rfl)]
    rfl
  have hrev : ("Provider '".data ++ (t.data
        ++ ("' is configured but not available. ".data ++ (err.getD "").data))).reverse
      = (err.getD "").data.reverse
          ++ (("' is configured but not available. ".data.reverse
              ++ (t.data.reverse ++ "Provider '".data.reverse))) := by
    simp [List.reverse_append, List.append_assoc]
  have hC : (List.dropWhile isPyWs
      "' is configured but not available. ".data.reverse).isEmpty = false := by rfl
  refine ⟨(if (List.dropWhile isPyWs (err.getD "").data.reverse).isEmpty
      then List.dropWhile isPyWs "' is configured but not available. ".data.reverse
      else List.dropWhile isPyWs (err.getD "").data.reverse
        ++ "' is configured but not available. ".data.reverse).reverse, ?_⟩
  show pyStripList _ = _
  unfold pyStripList
  rw [hsplit, hstep1, hrev, List.dropWhile_append]
  by_cases hE : (List.dropWhile isPyWs (err.getD "").data.reverse).isEmpty
  · rw [if_pos hE, if_pos hE, dropWhile_append_left_nonempty hC]
    simp [List.reverse_append, List.reverse_reverse, List.append_assoc]
  · rw [if_neg hE, if_neg hE]
    simp [List.reverse_append, List.reverse_reverse, List.append_assoc]

/-- C9: on a facade whose configured external provider failed to construct
(`_provider_type` recorded, `_provider is None`, no router), every
`generate`, `chat` and `complete` call raises a `RuntimeError` whose message
names the configured provider type; none of them returns a string (no silent
fallback to local inference). -/
theorem claimC9_provider_unavailable (st : Facade) (t : String)
    (renv : RouterEnv) (provCall localCall : Except String String)
    (h1 : st.providerType = some t) (h2 : st.providerOk = false)
    (h3 : st.routerProfiles = none) :
    micro_generate renv provCall localCall st
        = .error (providerUnavailableHint t st.providerError)
    ∧ micro_chat renv provCall localCall st
        = .error (providerUnavailableHint t st.providerError)
    ∧ micro_complete renv provCall localCall st
        = .error (providerUnavailableHint t st.providerError)
    ∧ (∀ s, micro_generate renv provCall localCall st ≠ .ok s)
    ∧ (∃ rest : List Char,
        (providerUnavailableHint t st.providerError).data
          = "Provider '".data ++ (t.data ++ rest)) := by
  have hg : micro_generate renv provCall localCall st
      = .error (providerUnavailableHint t st.providerError) := by
    unfold micro_generate
    rw [h3, h2, h1]
    simp
  refine ⟨hg, ?_, ?_, ?_, hint_names_type t st.providerError⟩
  · unfold micro_chat
    rw [h3, h2, h1]
    simp
  · unfold micro_complete
    rw [h3, h2, h1]
    simp
  · intro s hs
    rw [hg] at hs
    exact Except.noConfusion hs

/-- C9 witness: the facade state left behind by a failed `ollama` provider
construction. -/
theorem claimC9_provider_unavailable_witness :
    micro_generate envNoFactory (.ok "p") (.ok "l") st9
      = .error (providerUnavailableHint "ollama" (some "construction failed")) :=
  (claimC9_provider_unavailable st9 "ollama" envNoFactory (.ok "p") (.ok "l")
    rfl rfl rfl).1

/-! ## Claim C3: configuration precedence -/

theorem setProviderKey_preserves {c c' : JObj} {k' : String} {v : JVal}
    (h : setProviderKey c k' v = .ok c') {k : String} (hk : k ≠ "provider") :
    c'.lookup k = c.lookup k := by
  unfold setProviderKey at h
  split at h
  · obtain rfl := Except.ok.inj h
    exact lookup_set_ne _ _ (fun hh => hk hh.symm)
  · obtain rfl := Except.ok.inj h
    exact lookup_set_ne _ _ (fun hh => hk hh.symm)
  · exact Except.noConfusion h

theorem setProviderKey_field_self {c c' : JObj} {k' : String} {v : JVal}
    (h : setProviderKey c k' v = .ok c') :
    providerField c' k' = some v := by
  unfold setProviderKey at h
  split at h
  · obtain rfl := Except.ok.inj h
    unfold providerField
    rw [lookup_set_self]
    exact lookup_set_self _ _ _
  · obtain rfl := Except.ok.inj h
    unfold providerField
    rw [lookup_set_self]
    exact lookup_set_self _ _ _
  · exact Except.noConfusion h

theorem setProviderKey_field_ne {c c' : JObj} {k' : String} {v : JVal}
    (h : setProviderKey c k' v = .ok c') {k : String} (hk : k' ≠ k) :
    providerField c' k = providerField c k := by
  unfold setProviderKey at h
  split at h
  next hp =>
    obtain rfl := Except.ok.inj h
    unfold providerField
    rw [lookup_set_self, hp]
    exact lookup_set_ne _ _ hk
  next p hp =>
    obtain rfl := Except.ok.inj h
    unfold providerField
    rw [lookup_set_self, hp]
    exact lookup_set_ne _ _ hk
  next => exact Except.noConfusion h

theorem applyProviderEnv_preserves {c c' : JObj} {ev : Option String}
    {k' : String} {mk : String → JVal}
    (h : applyProviderEnv (.ok c) ev k' mk = .ok c') {k : String}
    (hk : k ≠ "provider") : c'.lookup k = c.lookup k := by
  cases ev with
  | none =>
      have hred : applyProviderEnv (.ok c) none k' mk = .ok c := rfl
      rw [hred] at h
      obtain rfl := Except.ok.inj h
      rfl
  | some s =>
      have hred : applyProviderEnv (.ok c) (some s) k' mk
          = if s = "" then .ok c else setProviderKey c k' (mk s) := rfl
      rw [hred] at h
      by_cases hs : s = ""
      · rw [if_pos hs] at h
        obtain rfl := Except.ok.inj h
        rfl
      · rw [if_neg hs] at h
        exact setProviderKey_preserves h hk

theorem applyProviderEnv_field_ne {c c' : JObj} {ev : Option String}
    {k' : String} {mk : String → JVal}
    (h : applyProviderEnv (.ok c) ev k' mk = .ok c') {k : String}
    (hk : k' ≠ k) : providerField c' k = providerField c k := by
  cases ev with
  | none =>
      have hred : applyProviderEnv (.ok c) none k' mk = .ok c := rfl
      rw [hred] at h
      obtain rfl := Except.ok.inj h
      rfl
  | some s =>
      have hred : applyProviderEnv (.ok c) (some s) k' mk
          = if s = "" then .ok c else setProviderKey c k' (mk s) := rfl
      rw [hred] at h
      by_cases hs : s = ""
      · rw [if_pos hs] at h
        obtain rfl := Except.ok.inj h
        rfl
      · rw [if_neg hs] at h
        exact setProviderKey_field_ne h hk

theorem applyAll_error (e : Unit) :
    ∀ steps, applyAll (.error e) steps = .error e := by
  intro steps
  induction steps with
  | nil => rfl
  | cons st rest ih =>
      rcases st with ⟨ev, k, mk⟩
      show applyAll (applyProviderEnv (.error e) ev k mk) rest = .error e
      have hred : applyProviderEnv (.error e) ev k mk = .error e := rfl
      rw [hred, ih]

theorem applyAll_ok_of {steps : List (Option String × String × (String → JVal))}
    {e : Except Unit JObj} {c' : JObj} (h : applyAll e steps = .ok c') :
    ∃ c, e = .ok c := by
  cases e with
  | ok c => exact ⟨c, rfl⟩
  | error u =>
      rw [applyAll_error u steps] at h
      exact Except.noConfusion h

theorem applyAll_preserves
    {steps : List (Option String × String × (String → JVal))} :
    ∀ {c c' : JObj}, applyAll (.ok c) steps = .ok c' → ∀ {k : String},
      k ≠ "provider" → c'.lookup k = c.lookup k := by
  induction steps with
  | nil =>
      intro c c' h k hk
      obtain rfl := Except.ok.inj h
      rfl
  | cons st rest ih =>
      rcases st with ⟨ev, k', mk⟩
      intro c c' h k hk
      have h' : applyAll (applyProviderEnv (.ok c) ev k' mk) rest = .ok c' := h
      obtain ⟨c1, hc1⟩ := applyAll_ok_of h'
      rw [hc1] at h'
      rw [ih h' hk, applyProviderEnv_preserves hc1 hk]

theorem applyAll_field_pres
    {steps : List (Option String × String × (String → JVal))} :
    ∀ {c c' : JObj}, applyAll (.ok c) steps = .ok c' → ∀ {k : String},
      (∀ st ∈ steps, st.2.1 ≠ k) → providerField c' k = providerField c k := by
  induction steps with
  | nil =>
      intro c c' h k _
      obtain rfl := Except.ok.inj h
      rfl
  | cons st rest ih =>
      rcases st with ⟨ev, k', mk⟩
      intro c c' h k hk
      have h' : applyAll (applyProviderEnv (.ok c) ev k' mk) rest = .ok c' := h
      obtain ⟨c1, hc1⟩ := applyAll_ok_of h'
      rw [hc1] at h'
      rw [ih h' (fun st hst => hk st (List.mem_cons_of_mem _ hst)),
        applyProviderEnv_field_ne hc1 (hk _ (List.mem_cons_self _ _))]

theorem applyAll_append (l1 l2 : List (Option String × String × (String → JVal))) :
    ∀ e, applyAll e (l1 ++ l2) = applyAll (applyAll e l1) l2 := by
  induction l1 with
  | nil => intro e; rfl
  | cons st rest ih =>
      rcases st with ⟨ev, k, mk⟩
      intro e
      show applyAll (applyProviderEnv e ev k mk) (rest ++ l2) = _
      rw [ih]
      rfl

theorem providerField_set_top {c : JObj} {k' : String} {v : JVal} {k : String}
    (hk : k' ≠ "provider") :
    providerField (c.set k' v) k = providerField c k := by
  unfold providerField
  rw [lookup_set_ne _ _ hk]

theorem applyTolerant_preserves {c : JObj} {ev : Option String} {k' : String}
    {k : String} (hk : k ≠ "provider") :
    (applyProviderEnvTolerant c ev k').lookup k = c.lookup k := by
  unfold applyProviderEnvTolerant
  split
  · rename_i s
    split
    · rfl
    · split
      · split
        next c2 hsk => exact setProviderKey_preserves hsk hk
        next => rfl
      · rfl
  · rfl

theorem applyTolerant_field_ne {c : JObj} {ev : Option String} {k' : String}
    {k : String} (hk : k' ≠ k) :
    providerField (applyProviderEnvTolerant c ev k') k = providerField c k := by
  unfold applyProviderEnvTolerant
  split
  · rename_i s
    split
    · rfl
    · split
      · split
        next c2 hsk => exact setProviderKey_field_ne hsk hk
        next => rfl
      · rfl
  · rfl

theorem applyAllTolerant_preserves {c : JObj}
    {steps : List (Option String × String)} {k : String}
    (hk : k ≠ "provider") :
    (applyAllTolerant c steps).lookup k = c.lookup k := by
  induction steps generalizing c with
  | nil => rfl
  | cons st rest ih =>
      rcases st with ⟨ev, k'⟩
      show (applyAllTolerant (applyProviderEnvTolerant c ev k') rest).lookup k = _
      rw [ih, applyTolerant_preserves hk]

theorem applyAllTolerant_field_pres {c : JObj}
    {steps : List (Option String × String)} {k : String}
    (hk : ∀ st ∈ steps, st.2 ≠ k) :
    providerField (applyAllTolerant c steps) k = providerField c k := by
  induction steps generalizing c with
  | nil => rfl
  | cons st rest ih =>
      rcases st with ⟨ev, k'⟩
      show providerField (applyAllTolerant (applyProviderEnvTolerant c ev k') rest) k = _
      rw [ih (fun st hst => hk st (List.mem_cons_of_mem _ hst)),
        applyTolerant_field_ne (hk _ (List.mem_cons_self _ _))]

theorem ggufStep_preserves {ep : EnvProv} {c : JObj} {k : String}
    (hk : k ≠ "auto_discovery_gguf_paths") :
    (ggufStep ep c).lookup k = c.lookup k := by
  unfold ggufStep
  split
  · split
    · rfl
    · dsimp only
      split
      · rfl
      · exact lookup_set_ne _ _ (fun hh => hk hh.symm)
  · rfl

theorem ggufStep_field (ep : EnvProv) (c : JObj) (k : String) :
    providerField (ggufStep ep c) k = providerField c k := by
  unfold ggufStep
  split
  · split
    · rfl
    · dsimp only
      split
      · rfl
      · exact providerField_set_top (by decide)
  · rfl

theorem foldl_mergeLoaded_config (srcs : List JObj) :
    ∀ mc : ManagerConfig,
      (srcs.foldl mergeLoadedConfig mc).config
        = srcs.foldl JObj.update mc.config := by
  induction srcs with
  | nil => intro mc; rfl
  | cons s rest ih => intro mc; exact ih _

theorem lookup_foldl_update_none {srcs : List JObj} {k : String}
    (h : ∀ s ∈ srcs, s.lookup k = none) :
    ∀ c : JObj, (srcs.foldl JObj.update c).lookup k = c.lookup k := by
  induction srcs with
  | nil => intro c; rfl
  | cons s rest ih =>
      intro c
      show ((rest.foldl JObj.update (c.update s))).lookup k = _
      rw [ih (fun s' hs' => h s' (List.mem_cons_of_mem _ hs'))]
      exact lookup_update_notbound s (h s (List.mem_cons_self _ _)) c

theorem lastBind_none {srcs : List JObj} {k : String}
    (h : lastBind srcs k = none) : ∀ s ∈ srcs, s.lookup k = none := by
  induction srcs with
  | nil => intro s hs; simp at hs
  | cons s rest ih =>
      intro s' hs'
      unfold lastBind at h
      rcases hr : lastBind rest k with _ | v
      · rw [hr] at h
        rcases List.mem_cons.mp hs' with rfl | hmem
        · exact h
        · exact ih hr s' hmem
      · rw [hr] at h
        exact Option.noConfusion h

theorem lookup_foldl_update_lastBind {srcs : List JObj} {k : String} {v : JVal}
    (hnd : ∀ s ∈ srcs, keysNodup s) (h : lastBind srcs k = some v) :
    ∀ c : JObj, (srcs.foldl JObj.update c).lookup k = some v := by
  induction srcs with
  | nil => simp [lastBind] at h
  | cons s rest ih =>
      intro c
      unfold lastBind at h
      show ((rest.foldl JObj.update (c.update s))).lookup k = some v
      rcases hr : lastBind rest k with _ | v'
      · rw [hr] at h
        rw [lookup_foldl_update_none (lastBind_none hr)]
        exact lookup_update_bound s (hnd s (List.mem_cons_self _ _)) h c
      · rw [hr] at h
        obtain rfl := Option.some.inj h
        exact ih (fun s' hs' => hnd s' (List.mem_cons_of_mem _ hs')) hr _

/-- C3: in `utils.load_config` an explicitly supplied `config_path`
overrides the discovered project file on any shared top-level leaf key not
owned by the env overrides; the `CHI_LLM_CONFIG` override beats both; the
narrowly-scoped `CHI_LLM_PROVIDER_*` variables beat every file source for
their own provider leaf; and in `ModelManager.load_config`, under either
resolution mode, the merged `default_model` is the one set by the
highest-precedence (latest-applied, per the documented per-mode ordering)
file source that binds it. -/
theorem claimC3_precedence (proj custom envc : Option JObj) (ep : EnvProv)
    (L : JObj) (k : String) (v : JVal)
    (hok : load_config proj custom envc ep = .ok L)
    (hk1 : k ≠ "provider") (hk2 : k ≠ "auto_discovery_gguf_paths") :
    ((∀ c, custom = some c → keysNodup c → c.lookup k = some v →
        v.isObj = false → (∀ e, envc = some e → e.lookup k = none) →
        L.lookup k = some v)
    ∧ (∀ e, envc = some e → keysNodup e → e.lookup k = some v →
        v.isObj = false → L.lookup k = some v)
    ∧ (∀ h, ep.host = some h → h ≠ "" →
        providerField L "host" = some (.jstr h))
    ∧ (∀ t, ep.ptype = some t → t ≠ "" →
        providerField L "type" = some (.jstr t)))
    ∧ (∀ (mw : ManagerWorld) (mid : String), mw.envModel = none →
        (∀ s ∈ orderedSources mw, keysNodup s) →
        lastBind (orderedSources mw) "default_model" = some (.jstr mid) →
        mid ≠ "" →
        (managerLoadConfig mw).config.lookup "default_model"
          = some (.jstr mid)) := by
  unfold load_config at hok
  rcases happ : applyAll (.ok (fileLayer proj custom envc))
      (providerEnvSetSteps ep) with u | c6
  · rw [happ] at hok
    exact Except.noConfusion hok
  · rw [happ] at hok
    obtain rfl := Except.ok.inj hok
    have htop : ∀ {k' : String}, k' ≠ "provider" →
        k' ≠ "auto_discovery_gguf_paths" →
        (applyAllTolerant (ggufStep ep c6) (tolerantSteps ep)).lookup k'
          = (fileLayer proj custom envc).lookup k' := by
      intro k' h1 h2
      rw [applyAllTolerant_preserves h1, ggufStep_preserves h2,
        applyAll_preserves happ h1]
    constructor
    · refine ⟨?_, ?_, ?_, ?_⟩
      · intro c hc hnd hb hv he
        rw [htop hk1 hk2]
        unfold fileLayer
        rw [hc]
        rcases envc with _ | e
        · rcases proj with _ | p <;>
            exact lookup_deepMerge_bound_nonobj hnd hb hv _
        · rw [lookup_deepMerge_notbound (he e rfl)]
          rcases proj with _ | p <;>
            exact lookup_deepMerge_bound_nonobj hnd hb hv _
      · intro e he hnd hb hv
        rw [htop hk1 hk2]
        unfold fileLayer
        rw [he]
        exact lookup_deepMerge_bound_nonobj hnd hb hv _
      · intro h hh hhne
        -- split the step chain at the `host` assignment
        have hsplit : providerEnvSetSteps ep
            = [(ep.ptype, "type", JVal.jstr), (ep.host, "host", JVal.jstr)]
              ++ [(ep.port, "port", portVal), (ep.apiKey, "api_key", JVal.jstr),
                  (ep.model, "model", JVal.jstr),
                  (ep.modelPath, "model_path", JVal.jstr)] := rfl
        rw [hsplit, applyAll_append] at happ
        obtain ⟨c5, hc5⟩ := applyAll_ok_of happ
        rw [hc5] at happ
        have hc5' : applyAll
            (applyProviderEnv (.ok (fileLayer proj custom envc)) ep.ptype "type"
              JVal.jstr) [(ep.host, "host", JVal.jstr)] = .ok c5 := hc5
        obtain ⟨c4, hc4⟩ := applyAll_ok_of hc5'
        rw [hc4] at hc5'
        have hhost : applyProviderEnv (.ok c4) ep.host "host" JVal.jstr
            = .ok c5 := hc5'
        rw [applyAllTolerant_field_pres
            (by intro st hst
                simp [tolerantSteps] at hst
                rcases hst with rfl | rfl | rfl <;> simp),
          ggufStep_field,
          applyAll_field_pres happ
            (by intro st hst
                simp at hst
                rcases hst with rfl | rfl | rfl | rfl <;> simp)]
        rw [hh] at hhost
        have hred : applyProviderEnv (.ok c4) (some h) "host" JVal.jstr
            = if h = "" then .ok c4 else setProviderKey c4 "host" (.jstr h) := rfl
        rw [hred, if_neg hhne] at hhost
        exact setProviderKey_field_self hhost
      · intro t ht htne
        have hsplit : providerEnvSetSteps ep
            = [] ++ ((ep.ptype, "type", JVal.jstr)
              :: [(ep.host, "host", JVal.jstr), (ep.port, "port", portVal),
                  (ep.apiKey, "api_key", JVal.jstr),
                  (ep.model, "model", JVal.jstr),
                  (ep.modelPath, "model_path", JVal.jstr)]) := rfl
        rw [hsplit, applyAll_append] at happ
        have htype : applyAll
            (applyProviderEnv (.ok (fileLayer proj custom envc)) ep.ptype "type"
              JVal.jstr)
            [(ep.host, "host", JVal.jstr), (ep.port, "port", portVal),
             (ep.apiKey, "api_key", JVal.jstr), (ep.model, "model", JVal.jstr),
             (ep.modelPath, "model_path", JVal.jstr)] = .ok c6 := happ
        obtain ⟨c4, hc4⟩ := applyAll_ok_of htype
        rw [hc4] at htype
        rw [applyAllTolerant_field_pres
            (by intro st hst
                simp [tolerantSteps] at hst
                rcases hst with rfl | rfl | rfl <;> simp),
          ggufStep_field,
          applyAll_field_pres htype
            (by intro st hst
                simp at hst
                rcases hst with rfl | rfl | rfl | rfl | rfl <;> simp)]
        rw [ht] at hc4
        have hred : applyProviderEnv (.ok (fileLayer proj custom envc)) (some t)
              "type" JVal.jstr
            = if t = "" then .ok (fileLayer proj custom envc)
              else setProviderKey (fileLayer proj custom envc) "type" (.jstr t) := rfl
        rw [hred, if_neg htne] at hc4
        exact setProviderKey_field_self hc4
    · intro mw mid henv hnd hlast hne
      unfold managerLoadConfig
      rw [henv]
      have hfile : ((orderedSources mw).foldl mergeLoadedConfig
          { config := managerBase, explicitDefault := false }).config.lookup
            "default_model" = some (.jstr mid) := by
        rw [foldl_mergeLoaded_config]
        exact lookup_foldl_update_lastBind hnd hlast _
      have hstep : ∀ (ev : Option String) (k' : String)
          (mc : ManagerConfig), k' ≠ "default_model" →
          mc.config.lookup "default_model" = some (.jstr mid) →
          (managerIntStep ev k' mc).config.lookup "default_model"
            = some (.jstr mid) := by
        intro ev k' mc hk' hmc
        unfold managerIntStep
        split
        · split
          · show (mc.config.set k' _).lookup "default_model" = _
            rw [lookup_set_ne _ _ hk']
            exact hmc
          · exact hmc
        · exact hmc
      have hfinal := hstep mw.envMaxTokens "preferred_max_tokens" _ (by decide)
        (hstep mw.envContext "preferred_context" _ (by decide)
          (show (managerEnvModelStep none _).config.lookup "default_model"
              = some (.jstr mid) from hfile))
      unfold managerFillStep
      rw [if_pos ?_]
      · exact hfinal
      · rw [hfinal]
        simp [pyTruthyOpt, pyTruthy, hne]

/-- C3 witness: the project file sets `a := 1`, the explicit path sets
`a := 2` (and wins), `CHI_LLM_CONFIG` sets `b := 3` (and wins),
`CHI_LLM_PROVIDER_HOST` beats the project file's `provider.host`; and an
explicit-path `default_model` beats a CWD file's in `ModelManager`. -/
theorem claimC3_precedence_witness :
    load_config (some projW) (some customW) (some envcW) epW = .ok LW
    ∧ LW.lookup "a" = some (.jnum 2)
    ∧ LW.lookup "b" = some (.jnum 3)
    ∧ providerField LW "host" = some (.jstr "eh")
    ∧ (managerLoadConfig mwW).config.lookup "default_model"
        = some (.jstr "y") := by
  have hok : load_config (some projW) (some customW) (some envcW) epW
      = .ok LW := rfl
  refine ⟨hok, ?_, ?_, ?_, ?_⟩
  · exact (claimC3_precedence (some projW) (some customW) (some envcW) epW LW
      "a" (.jnum 2) hok (by decide) (by decide)).1.1 customW rfl
      (by simp [keysNodup, customW, jo, JObj.keys]) rfl rfl
      (fun e he => by rw [← Option.some.inj he]; rfl)
  · exact (claimC3_precedence (some projW) (some customW) (some envcW) epW LW
      "b" (.jnum 3) hok (by decide) (by decide)).1.2.1 envcW rfl
      (by simp [keysNodup, envcW, jo, JObj.keys]) rfl rfl
  · exact (claimC3_precedence (some projW) (some customW) (some envcW) epW LW
      "host" .jnull hok (by decide) (by decide)).1.2.2.1 "eh" rfl (by decide)
  · exact (claimC3_precedence (some projW) (some customW) (some envcW) epW LW
      "x" .jnull hok (by decide) (by decide)).2 mwW "y" rfl
      (by intro s hs
          have hsrc : orderedSources mwW
              = [jo [("default_model", JVal.jstr "x")],
                 jo [("default_model", JVal.jstr "y")]] := rfl
          rw [hsrc] at hs
          simp at hs
          rcases hs with rfl | rfl <;> simp [keysNodup, jo, JObj.keys])
      rfl (by decide)

/-! ## Claims C1 and C8: facade construction -/

theorem registryLookup_eq_none {mid : String}
    (h : isRegistryId mid = false) : registryLookup mid = none := by
  unfold registryLookup
  rw [List.find?_eq_none]
  intro m hm hpm
  have hany : MODELS.any (fun m => m.id = mid) = true :=
    List.any_eq_true.mpr ⟨m, hm, hpm⟩
  rw [show MODELS.any (fun m => m.id = mid) = isRegistryId mid from rfl, h]
    at hany
  exact Bool.noConfusion hany

theorem initProviderStep_localLoaded (w : World) (cfg : JObj) :
    (initProviderStep w cfg).1.localLoaded = false := by
  unfold initProviderStep
  dsimp only
  repeat' split
  all_goals rfl

theorem microResolveStep_localLoaded (w : World)
    (sp : Facade × Option String × Option String) :
    (microResolveStep w sp).localLoaded = sp.1.localLoaded := by
  unfold microResolveStep
  dsimp only
  repeat' split
  all_goals rfl

/-- C1 counterexample: `CHI_LLM_MODEL` set to `"no-such-model"` — an id
absent from `MODELS` — does not make construction fail: the unknown id is
silently dropped by `ModelManager.load_config` (models.py:370 requires
`model_id in MODELS`), the merged configuration carries the built-in
default, and the facade constructs and loads the legacy local model. -/
theorem claimC1_counterexample :
    isRegistryId "no-such-model" = false
    ∧ microInit c1CexWorld = .ok c1CexState
    ∧ c1CexState.modelId = none
    ∧ c1CexState.localLoaded = true
    ∧ (managerLoadConfig c1CexWorld.mw).config.lookup "default_model"
        = some (.jstr "gemma-270m")
    ∧ (managerLoadConfig c1CexWorld.mw).explicitDefault = false :=
  ⟨rfl, rfl, rfl, rfl, rfl, rfl⟩

/-- C1 (amended): when `default_model` is explicitly set by a discovered
`.chi_llm.json` file to an id absent from `MODELS`, and the legacy cached
model file is absent and no external provider or router is configured,
facade construction fails fatally with an `Unknown model` error naming the
id — it is not silently replaced.  (Per the counterexample, an unknown id
arriving via `CHI_LLM_MODEL` is instead silently ignored, and a present
legacy cache bypasses the check.) -/
theorem claimC1_unknown_model_fatal (mid : String)
    (h1 : isRegistryId mid = false) (h2 : mid ≠ "") :
    microInit (c1World mid)
      = .error ("Unknown model: " ++ mid
          ++ ". Run 'chi-llm setup' to see available models.") := by
  have hreg := registryLookup_eq_none h1
  simp +decide [microInit, c1World, explicitCfg, microResolveStep, microEnsure,
    List.foldl_cons, List.foldl_nil, List.filterMap_cons, List.filterMap_nil,
    managerLoadConfig, managerEnvModelStep, managerIntStep, managerFillStep,
    orderedSources, mergeLoadedConfig, managerBase, JObj.update, JObj.set,
    JObj.lookup, jo, pyTruthyOpt, pyTruthy, load_config, fileLayer,
    utilsDefaults, deepMergeObj, deepMergeVal, providerEnvSetSteps, applyAll,
    applyProviderEnv, ggufStep, applyAllTolerant, tolerantSteps,
    initProviderStep, resolve_effective_model, effectiveDefault,
    downloadModel, hreg, h2]

/-- C1 witness: the amended fatal-error path at a concrete unknown id. -/
theorem claimC1_unknown_model_fatal_witness :
    microInit (c1World "definitely-not-a-model")
      = .error ("Unknown model: definitely-not-a-model. Run 'chi-llm setup' to see available models.") :=
  claimC1_unknown_model_fatal "definitely-not-a-model" rfl (by decide)

/-- C8 counterexample: a resolved configuration selecting the external
`ollama` provider (via inline `CHI_LLM_CONFIG` JSON) whose `timeout` value
`float()` rejects leaves `_provider` unset, and construction falls through
to `_ensure_model_loaded`, loading a local model — with no explicit
`default_model` anywhere. -/
theorem claimC8_counterexample :
    microInit c8CexWorld = .ok c8CexState
    ∧ c8CexState.providerType = some "ollama"
    ∧ c8CexState.providerOk = false
    ∧ c8CexState.modelId = none
    ∧ c8CexState.localLoaded = true :=
  ⟨rfl, rfl, rfl, rfl, rfl⟩

/-- C8 (amended): whenever construction leaves an external provider
instance in place or a router configured, no local model is loaded — the
local runtime handle is untouched.  (Per the counterexample, a configured
external provider whose adapter fails to construct falls back to loading
the local model.) -/
theorem claimC8_no_local_when_provider (w : World) (st : Facade)
    (h : microInit w = .ok st)
    (hp : st.providerOk = true ∨ st.routerProfiles ≠ none) :
    st.localLoaded = false := by
  unfold microInit at h
  have hbase : (match load_config w.uw.proj none w.uw.envFile w.uw.ep with
      | .error _ => (({} : Facade), (none : Option String), (none : Option String))
      | .ok cfg => initProviderStep w cfg).1.localLoaded = false := by
    split
    · rfl
    · exact initProviderStep_localLoaded w _
  generalize hg : (match load_config w.uw.proj none w.uw.envFile w.uw.ep with
      | .error _ => (({} : Facade), (none : Option String), (none : Option String))
      | .ok cfg => initProviderStep w cfg) = sp at h hbase
  unfold microEnsure at h
  split at h
  next hcond =>
    have contra : False := by
      rcases hp with hp | hp
      · have hok : st.providerOk = (microResolveStep w sp).providerOk := by
          split at h
          · obtain rfl := Except.ok.inj h
            rfl
          · split at h
            · obtain rfl := Except.ok.inj h
              rfl
            · exact Except.noConfusion h
        rw [hok, hcond.1] at hp
        exact Bool.noConfusion hp
      · have hok : st.routerProfiles = (microResolveStep w sp).routerProfiles := by
          split at h
          · obtain rfl := Except.ok.inj h
            rfl
          · split at h
            · obtain rfl := Except.ok.inj h
              rfl
            · exact Except.noConfusion h
        rw [hok, hcond.2] at hp
        exact hp rfl
    exact absurd contra not_false
  next hcond =>
    obtain rfl := Except.ok.inj h
    rw [microResolveStep_localLoaded, hbase]

/-- C8 witness: the spec scenario — `CHI_LLM_PROVIDER_TYPE=ollama` with
host/port and no explicit `default_model` — constructs a working provider
and, by the theorem, loads no local model. -/
theorem claimC8_no_local_when_provider_witness :
    microInit c8ScenarioWorld = .ok c8ScenState
    ∧ c8ScenState.providerOk = true
    ∧ c8ScenState.localLoaded = false := by
  have hok : microInit c8ScenarioWorld = .ok c8ScenState := rfl
  exact ⟨hok, rfl,
    claimC8_no_local_when_provider c8ScenarioWorld c8ScenState hok
      (Or.inl rfl)⟩

end ChiLLM